import Mathlib

/-!
# oidentd: ident (RFC 1413) request handling and OpenBSD kernel lookups

A shallow embedding of `src/oidentd.c` (`main` accept loop, `service_request`,
`sig_child`) and `src/kernel/openbsd.c` (`getbuf`, `getlist4`, `get_user4`,
`get_user6`, `masq`).

Conventions
* machine integers are `Nat`/`Int`, reduced explicitly where the C type wraps;
* kernel memory is read through typed `kvm_read` views that may fail;
* the two pointer walks (`getlist4`, `masq`) take a fuel argument: the result
  `none` means the walk did not finish within that many iterations;
* every function returns, next to its C result, the trace of the effects it
  performed (`Event`), in program order;
* logging (`o_log`, `debug`) and the host-name lookup done for logging are not
  part of the model.
-/

namespace Oidentd

/-! ## Constants and machine integers -/

/-- Address family of IPv4 socket addresses (`sys/socket.h`). -/
def AF_INET : Nat := 2

/-- Address family of IPv6 socket addresses (`sys/socket.h`, OpenBSD). -/
def AF_INET6 : Nat := 24

/-- Protocol number of TCP (`netinet/in.h`). -/
def IPPROTO_TCP : Nat := 6

/-- Socket state bit "connect, not accept, at this end" (`sys/socketvar.h`). -/
def SS_CONNECTOUT : Nat := 0x1000

/-- Size of `struct sockaddr_storage`, the type of `tir.faddr` and `tir.laddr`. -/
def sizeof_sockaddr_storage : Nat := 256

/-- Modelled from the spec: `MISSING_UID` (missing.h is not among the sources),
the sentinel "missing" owner of spec section 3, a magic number of type `uid_t`:
`(uid_t) -1`. -/
def MISSING_UID : Nat := 4294967295

/-- Modelled from the spec: the `VALID_PORT` macro (oidentd.h is not among the
sources): "ports must lie in 1-65535". -/
def VALID_PORT (p : Int) : Bool := decide (1 ≤ p) && decide (p ≤ 65535)

/-- Modelled from the spec: the `ERROR` macro (oidentd.h is not among the
sources): the reason code of an error reply is the one handed to it
(spec section 6). -/
def ERROR (reason : String) : String := reason

/-- The cast `(in_port_t) x` of an `int` to the 16-bit port type. -/
def in_port_t (x : Int) : Nat := (x % 65536).toNat

/-- Exchange of the two bytes of a 16-bit value. -/
def bswap16 (x : Nat) : Nat := (x % 256) * 256 + (x / 256) % 256

/-- `htons`: host to network byte order, on a host whose byte order is given. -/
def htons (little_endian : Bool) (x : Nat) : Nat :=
  if little_endian then bswap16 x else x % 65536

/-- `ntohs`: network to host byte order. -/
def ntohs (little_endian : Bool) (x : Nat) : Nat :=
  if little_endian then bswap16 x else x % 65536

/-! ## Socket addresses -/

/-- The fields of `struct sockaddr_storage` read through `SIN4` and `SIN6`. -/
structure sockaddr_storage where
  ss_len : Nat
  ss_family : Nat
  sin_addr : Nat
  sin6_addr : Nat
deriving DecidableEq, Repr

/-- The macro `IN6_IS_ADDR_V4MAPPED` on a 128-bit address `::ffff:a.b.c.d`. -/
def IN6_IS_ADDR_V4MAPPED (a6 : Nat) : Bool := a6 / 2 ^ 32 == 0xffff

/-- Modelled from the spec: `sin_extractv4` (inet_util.c is not among the
sources): the IPv4 form of a mapped IPv6 address. -/
def sin_extractv4 (a6 : Nat) : Nat := a6 % 2 ^ 32

/-- Modelled from the spec: `sin_mapv4to6` (inet_util.c is not among the
sources): the mapped IPv6 form of an IPv4 address. -/
def sin_mapv4to6 (a4 : Nat) : Nat := 0xffff * 2 ^ 32 + a4 % 2 ^ 32

/-- Modelled from the spec: `sin_setv4` (inet_util.c is not among the sources):
makes the socket address an IPv4 one holding the given address. -/
def sin_setv4 (a4 : Nat) (ss : sockaddr_storage) : sockaddr_storage :=
  { ss with ss_len := 16, ss_family := AF_INET, sin_addr := a4 }

/-- Modelled from the spec: `sin_setv6` (inet_util.c is not among the sources):
makes the socket address an IPv6 one holding the given address. -/
def sin_setv6 (a6 : Nat) (ss : sockaddr_storage) : sockaddr_storage :=
  { ss with ss_len := 28, ss_family := AF_INET6, sin6_addr := a6 }

/-- The value of a socket address local variable before it is assigned. -/
def sockaddr_storage.uninit : sockaddr_storage :=
  { ss_len := 0, ss_family := 0, sin_addr := 0, sin6_addr := 0 }

/-! ## Kernel structures -/

/-- The fields of `struct inpcb` used by `getlist4`. -/
structure inpcb where
  inp_faddr : Nat
  inp_laddr : Nat
  inp_fport : Nat
  inp_lport : Nat
  inp_socket : Nat
  cqe_next : Nat
deriving DecidableEq, Repr

/-- The fields of `struct socket` used by `get_user4`. -/
structure socket where
  so_state : Nat
  so_ruid : Nat
deriving DecidableEq, Repr

/-- The field of `struct inpcbtable` used by `getlist4`:
`inpt_queue.cqh_first`. -/
structure inpcbtable where
  cqh_first : Nat
deriving DecidableEq, Repr

/-- The fields of `nat_t` used by `masq`. -/
structure nat_t where
  nat_p : Nat
  nat_outport : Nat
  nat_oport : Nat
  nat_inport : Nat
  nat_outip : Nat
  nat_oip : Nat
  nat_inip : Nat
  nat_next : Nat
deriving DecidableEq, Repr

/-- Kernel memory as seen through `kvm_read`: one typed view per structure
that the code reads; `none` is a failed read. `n_tcb` and `n_natlist` are
`kinfo->nl[N_TCB].n_value` and `kinfo->nl[N_NATLIST].n_value`. -/
structure Kmem where
  n_tcb : Nat
  n_natlist : Nat
  read_inpcbtable : Nat → Option inpcbtable
  read_inpcb : Nat → Option inpcb
  read_socket : Nat → Option socket
  read_ptr : Nat → Option Nat
  read_nat : Nat → Option nat_t

/-! ## Collaborators and effects -/

/-- The result of `getpwuid`, as copied by `copy_pw`. -/
structure passwd where
  pw_name : String
  pw_uid : Nat
  pw_gid : Nat
  pw_dir : String
deriving DecidableEq, Repr

/-- The fields of `struct udb_lookup_res` used by `service_request`. -/
structure udb_lookup_res where
  status : Int
  uid : Nat
deriving DecidableEq, Repr

/-- The result of `sysctl` on `TCPCTL_IDENT`: its return value and `tir.ruid`. -/
structure tcp_ident_res where
  error : Int
  ruid : Nat
deriving DecidableEq, Repr

/-- The result of `find_masq_entry`: its return value and the user and
operating system names it stored. -/
structure masq_entry where
  ret : Int
  user : String
  os : String
deriving DecidableEq, Repr

/-- The result of `get_ident`: its return value and the identifier it stored
in `suser`. -/
structure ident_res where
  ret : Int
  suser : String
deriving DecidableEq, Repr

/-- The effects of the modelled code, in program order. The collaborators
that are not among the sources (`get_udb_user`, `find_masq_entry`,
`fwd_request`, `getpwuid`, `get_ident`) appear as one event each: what they
do themselves is not part of the model. -/
inductive Event where
  | sockprintf (fd : Nat) (bytes : String)
  | getbuf (addr : Nat)
  | sysctl (lport fport : Nat) (laddr faddr : Nat)
  | get_udb_user (lport fport : Nat)
  | get_user4 (lport fport : Nat)
  | get_user6 (lport fport : Nat) (laddr faddr : Nat)
  | masq (lport fport : Nat)
  | find_masq_entry (ip : Nat)
  | fwd_request (lport masq_lport fport masq_fport ip : Nat)
  | getpwuid (uid : Nat)
  | get_ident (uid : Nat)
deriving DecidableEq, Repr

/-- Everything `service_request` depends on: build configuration, options,
globals, the accepted socket, kernel memory and the collaborators that are
not among the sources. -/
structure Env where
  HAVE_LIBUDB : Bool
  WANT_IPV6 : Bool
  little_endian : Bool
  opt_USEUDB : Bool
  opt_MASQ : Bool
  opt_PROXY : Bool
  opt_FORWARD : Bool
  opt_MASQ_OVERRIDE : Bool
  ret_os : String
  failuser : Option String
  proxy : sockaddr_storage
  getpeername : Nat → Option sockaddr_storage
  getsockname : Nat → Option sockaddr_storage
  sock_read : Nat → Option String
  kmem : Kmem
  sysctl_ident : Nat → Nat → Nat → Nat → tcp_ident_res
  get_udb_user : Nat → Nat → sockaddr_storage → sockaddr_storage → Nat → udb_lookup_res
  getpwuid : Nat → Option passwd
  get_ident : passwd → Nat → Nat → sockaddr_storage → sockaddr_storage → ident_res
  find_masq_entry : sockaddr_storage → masq_entry
  fwd_request : Nat → Nat → Nat → Nat → Nat → sockaddr_storage → Int

/-- The bytes that the `sockprintf` calls of a trace wrote to a descriptor. -/
def written (fd : Nat) : List Event → List String
  | [] => []
  | Event.sockprintf fd1 bytes :: tr =>
    if fd1 = fd then bytes :: written fd tr else written fd tr
  | _ :: tr => written fd tr

/-- Whether an effect is a write to a socket. -/
def Event.is_write : Event → Bool
  | Event.sockprintf _ _ => true
  | _ => false

/-! ## `sscanf(line, "%d , %d", ...)` -/

/-- The C `isspace` in the "C" locale. -/
def isspace (c : Char) : Bool := c.toNat == 32 || (decide (9 ≤ c.toNat) && decide (c.toNat ≤ 13))

/-- The C `isdigit`. -/
def isdigit (c : Char) : Bool := decide (48 ≤ c.toNat) && decide (c.toNat ≤ 57)

/-- White space in a format, and the start of `%d`: skip input white space. -/
def skip_space : List Char → List Char
  | [] => []
  | c :: cs => if isspace c then skip_space cs else c :: cs

/-- The longest run of decimal digits at the start of the input, with the
value read so far, and the input after it. -/
def scan_digits : Nat → List Char → Nat × List Char
  | acc, [] => (acc, [])
  | acc, c :: cs => if isdigit c then scan_digits (10 * acc + (c.toNat - 48)) cs else (acc, c :: cs)

/-- What the C library stores in an `int` for a scanned number: `strtoimax`
saturates at the 64-bit range and the store keeps the low 32 bits. -/
def store_int (neg : Bool) (magnitude : Nat) : Int :=
  let v : Int := if neg then - (magnitude : Int) else (magnitude : Int)
  let v64 : Int := max (-(2 ^ 63 : Int)) (min v (2 ^ 63 - 1))
  (v64 + 2 ^ 31) % 2 ^ 32 - 2 ^ 31

/-- One `%d` conversion: skip white space, read an optional sign and at least
one digit. `none` is a matching or input failure. -/
def scan_d (s : List Char) : Option (Int × List Char) :=
  let s1 := skip_space s
  let neg := match s1 with
    | c :: _ => c.toNat == 45
    | [] => false
  let s2 := match s1 with
    | c :: cs => if c.toNat == 45 || c.toNat == 43 then cs else c :: cs
    | [] => []
  match s2 with
  | [] => none
  | c :: cs =>
    if isdigit c then
      let r := scan_digits 0 (c :: cs)
      some (store_int neg r.1, r.2)
    else none

/-- The outcome of `sscanf(line, "%d , %d", &lport_temp, &fport_temp)`: the
return value and the two targets. A target that was not converted is left as
it was (written 0 here; the code does not read it when `len < 2`). -/
structure scan_res where
  len : Int
  lport_temp : Int
  fport_temp : Int
deriving DecidableEq, Repr

/-- The call `sscanf(line, "%d , %d", &lport_temp, &fport_temp)`. The return
value is `EOF` when the input ends before the first conversion, else the
number of conversions made. -/
def sscanf (line : List Char) : scan_res :=
  match scan_d line with
  | none => { len := if skip_space line = [] then -1 else 0, lport_temp := 0, fport_temp := 0 }
  | some (a, rest) =>
    match skip_space rest with
    | c :: cs =>
      if c.toNat == 44 then
        match scan_d (skip_space cs) with
        | some (b, _) => { len := 2, lport_temp := a, fport_temp := b }
        | none => { len := 1, lport_temp := a, fport_temp := 0 }
      else { len := 1, lport_temp := a, fport_temp := 0 }
    | [] => { len := 1, lport_temp := a, fport_temp := 0 }

/-! ## `kernel/openbsd.c` -/

/-- The test of `getlist4` under `opt_enabled(PROXY)`: the query's remote
address is the proxy, its local address is not, and the ports are equal. -/
def getlist4_proxy_match (env : Env) (lport fport laddr faddr : Nat) (pcb : inpcb) : Bool :=
  env.opt_PROXY &&
    (faddr == env.proxy.sin_addr && laddr != env.proxy.sin_addr &&
      pcb.inp_fport == fport && pcb.inp_lport == lport)

/-- The second test of `getlist4`: all four fields are equal. -/
def getlist4_exact_match (lport fport laddr faddr : Nat) (pcb : inpcb) : Bool :=
  pcb.inp_faddr == faddr && pcb.inp_laddr == laddr &&
    pcb.inp_fport == fport && pcb.inp_lport == lport

/-- The `while` loop of `getlist4` from the entry at `kpcbp` on: the address
of the socket of the first matching entry, or 0 (`NULL`) when the walk comes
back to the head `ktcbtablep` or a read fails. -/
def getlist4_loop (env : Env) (ktcbtablep lport fport laddr faddr : Nat) :
    Nat → Nat → Option (Nat × List Event)
  | 0, _ => none
  | fuel + 1, kpcbp =>
    if kpcbp = ktcbtablep then some (0, [])
    else
      match env.kmem.read_inpcb kpcbp with
      | none => some (0, [Event.getbuf kpcbp])
      | some pcb =>
        if getlist4_proxy_match env lport fport laddr faddr pcb then
          some (pcb.inp_socket, [Event.getbuf kpcbp])
        else if getlist4_exact_match lport fport laddr faddr pcb then
          some (pcb.inp_socket, [Event.getbuf kpcbp])
        else
          match getlist4_loop env ktcbtablep lport fport laddr faddr fuel pcb.cqe_next with
          | none => none
          | some (sockp, tr) => some (sockp, Event.getbuf kpcbp :: tr)

/-- The function `getlist4`: traverse the inpcb list until a match is found. -/
def getlist4 (fuel : Nat) (env : Env) (tcbtablep : Option inpcbtable)
    (ktcbtablep lport fport laddr faddr : Nat) : Option (Nat × List Event) :=
  match tcbtablep with
  | none => some (0, [])
  | some tcbtable =>
    getlist4_loop env ktcbtablep lport fport laddr faddr fuel tcbtable.cqh_first

/-- The function `get_user4`: the uid of the owner of an IPv4 connection, or
`MISSING_UID`. -/
def get_user4 (fuel : Nat) (env : Env) (lport fport : Nat)
    (laddr faddr : sockaddr_storage) : Option (Nat × List Event) :=
  match env.kmem.read_inpcbtable env.kmem.n_tcb with
  | none => some (MISSING_UID, [Event.getbuf env.kmem.n_tcb])
  | some tcbtable =>
    match getlist4 fuel env (some tcbtable) env.kmem.n_tcb lport fport
        laddr.sin_addr faddr.sin_addr with
    | none => none
    | some (sockp, tr) =>
      if sockp = 0 then some (MISSING_UID, Event.getbuf env.kmem.n_tcb :: tr)
      else
        match env.kmem.read_socket sockp with
        | none =>
          some (MISSING_UID, Event.getbuf env.kmem.n_tcb :: (tr ++ [Event.getbuf sockp]))
        | some sock =>
          if Nat.land sock.so_state SS_CONNECTOUT = 0 then
            some (MISSING_UID, Event.getbuf env.kmem.n_tcb :: (tr ++ [Event.getbuf sockp]))
          else
            some (sock.so_ruid, Event.getbuf env.kmem.n_tcb :: (tr ++ [Event.getbuf sockp]))

/-- The function `get_user6`: the uid of the owner of an IPv6 connection, or
`MISSING_UID`. -/
def get_user6 (env : Env) (lport fport : Nat)
    (laddr faddr : sockaddr_storage) : Nat × List Event :=
  if faddr.ss_len > sizeof_sockaddr_storage then (MISSING_UID, [])
  else if laddr.ss_len > sizeof_sockaddr_storage then (MISSING_UID, [])
  else
    let tir := env.sysctl_ident faddr.sin6_addr fport laddr.sin6_addr lport
    if tir.error = 0 ∧ tir.ruid ≠ 4294967295 then
      (tir.ruid, [Event.sysctl lport fport laddr.sin6_addr faddr.sin6_addr])
    else (MISSING_UID, [Event.sysctl lport fport laddr.sin6_addr faddr.sin6_addr])

/-- The five tests at the head of the body of the `for` loop of `masq`: the
entry is a TCP one, its outside ports and outside local address are those of
the query, and its remote address is that of the query or, in proxy mode, the
query comes from the proxy and not to it. -/
def masq_match (env : Env) (lport fport : Nat) (laddr faddr : sockaddr_storage)
    (nat : nat_t) : Bool :=
  nat.nat_p == IPPROTO_TCP && lport == nat.nat_outport && fport == nat.nat_oport &&
    laddr.sin_addr == nat.nat_outip &&
    (faddr.sin_addr == nat.nat_oip ||
      (env.opt_PROXY && faddr.sin_addr == env.proxy.sin_addr &&
        laddr.sin_addr != env.proxy.sin_addr))

/-- The `for` loop of `masq` from the entry at `np` on, with the current values
of the variables `lport` and `fport`. -/
def masq_loop (env : Env) (sock : Nat) (laddr faddr : sockaddr_storage) :
    Nat → Nat → Nat → Nat → Option (Bool × List Event)
  | 0, _, _, _ => none
  | fuel + 1, np, lport, fport =>
    if np = 0 then some (false, [])
    else
      match env.kmem.read_nat np with
      | none => some (false, [Event.getbuf np])
      | some nat =>
        if !masq_match env lport fport laddr faddr nat then
          match masq_loop env sock laddr faddr fuel nat.nat_next lport fport with
          | none => none
          | some (r, tr) => some (r, Event.getbuf np :: tr)
        else
          let lport1 := ntohs env.little_endian lport
          let fport1 := ntohs env.little_endian fport
          let masq_lport := ntohs env.little_endian nat.nat_inport
          let masq_fport := ntohs env.little_endian nat.nat_outport
          let ss := sin_setv4 nat.nat_inip sockaddr_storage.uninit
          let me := env.find_masq_entry ss
          let retm := me.ret
          let forward := env.opt_FORWARD && (retm != 0 || !env.opt_MASQ_OVERRIDE)
          let retf := env.fwd_request sock lport1 masq_lport fport1 masq_fport ss
          let tr_fwd :=
            if forward then [Event.fwd_request lport1 masq_lport fport1 masq_fport nat.nat_inip]
            else []
          let tr0 := Event.getbuf np :: Event.find_masq_entry nat.nat_inip :: tr_fwd
          if forward && retf == 0 && retm != 0 then some (true, tr0)
          else if retm == 0 then
            some (true, tr0 ++ [Event.sockprintf sock
              (toString lport1 ++ "," ++ toString fport1 ++ ":USERID:" ++ me.os ++ ":" ++
                me.user ++ "\r\n")])
          else
            match masq_loop env sock laddr faddr fuel nat.nat_next lport1 fport1 with
            | none => none
            | some (r, tr) => some (r, tr0 ++ tr)

/-- The function `masq`: handle a request to a host that is IP masquerading
through us; true on success, false on failure. -/
def masq (fuel : Nat) (env : Env) (sock lport fport : Nat)
    (laddr faddr : sockaddr_storage) : Option (Bool × List Event) :=
  if faddr.ss_family ≠ AF_INET ∨ laddr.ss_family ≠ AF_INET then some (false, [])
  else
    match env.kmem.read_ptr env.kmem.n_natlist with
    | none => some (false, [Event.getbuf env.kmem.n_natlist])
    | some np =>
      match masq_loop env sock laddr faddr fuel np lport fport with
      | none => none
      | some (r, tr) => some (r, Event.getbuf env.kmem.n_natlist :: tr)

/-! ## `oidentd.c`: `service_request` -/

/-- Lines 293-301 of `service_request`: the user database lookup. The first
component is `none` when the function returns at once (`udb_res.status == 2`),
else the new value of `con_uid`. -/
def lookup_udb (env : Env) (insock lport fport : Nat) (laddr faddr : sockaddr_storage)
    (con_uid : Nat) : Option Nat × List Event :=
  if env.HAVE_LIBUDB && env.opt_USEUDB then
    let udb_res := env.get_udb_user lport fport laddr faddr insock
    if udb_res.status = 2 then (none, [Event.get_udb_user lport fport])
    else (some udb_res.uid, [Event.get_udb_user lport fport])
  else (some con_uid, [])

/-- Lines 303-304 of `service_request`: the IPv4 lookup. -/
def lookup_user4 (fuel : Nat) (env : Env) (lport fport : Nat)
    (laddr faddr : sockaddr_storage) (con_uid : Nat) : Option (Nat × List Event) :=
  if con_uid = MISSING_UID ∧ laddr.ss_family = AF_INET then
    match get_user4 fuel env (htons env.little_endian lport) (htons env.little_endian fport)
        laddr faddr with
    | none => none
    | some (uid, tr) =>
      some (uid, Event.get_user4 (htons env.little_endian lport)
        (htons env.little_endian fport) :: tr)
  else some (con_uid, [])

/-- Lines 311-322 of `service_request`: the IPv6 lookup on the mapped form of
the IPv4 addresses. -/
def lookup_mapped6 (env : Env) (lport fport : Nat)
    (laddr faddr : sockaddr_storage) (con_uid : Nat) : Nat × List Event :=
  if env.WANT_IPV6 = true ∧ con_uid = MISSING_UID ∧ laddr.ss_family = AF_INET then
    let laddr_m6 := sin_setv6 (sin_mapv4to6 laddr.sin_addr) sockaddr_storage.uninit
    let faddr_m6 := sin_setv6 (sin_mapv4to6 faddr.sin_addr) sockaddr_storage.uninit
    let r := get_user6 env (htons env.little_endian lport) (htons env.little_endian fport)
      laddr_m6 faddr_m6
    (r.1, Event.get_user6 (htons env.little_endian lport) (htons env.little_endian fport)
      laddr_m6.sin6_addr faddr_m6.sin6_addr :: r.2)
  else (con_uid, [])

/-- Lines 324-325 of `service_request`: the IPv6 lookup on the addresses as
received. -/
def lookup_user6 (env : Env) (lport fport : Nat)
    (laddr6 faddr6 : sockaddr_storage) (con_uid : Nat) : Nat × List Event :=
  if env.WANT_IPV6 = true ∧ con_uid = MISSING_UID ∧ laddr6.ss_family = AF_INET6 then
    let r := get_user6 env (htons env.little_endian lport) (htons env.little_endian fport)
      laddr6 faddr6
    (r.1, Event.get_user6 (htons env.little_endian lport) (htons env.little_endian fport)
      laddr6.sin6_addr faddr6.sin6_addr :: r.2)
  else (con_uid, [])

/-- Lines 328-332 of `service_request`: the masquerade lookup. The result is
true when `masq` was called and returned true. -/
def lookup_masq (fuel : Nat) (env : Env) (insock lport fport : Nat)
    (laddr faddr : sockaddr_storage) (con_uid : Nat) : Option (Bool × List Event) :=
  if env.opt_MASQ = true ∧ con_uid = MISSING_UID ∧ laddr.ss_family = AF_INET then
    match masq fuel env insock (htons env.little_endian lport)
        (htons env.little_endian fport) laddr faddr with
    | none => none
    | some (r, tr) =>
      some (r, Event.masq (htons env.little_endian lport)
        (htons env.little_endian fport) :: tr)
  else some (false, [])

/-- The function `copy_pw`. -/
def copy_pw (pw : passwd) : passwd :=
  { pw_name := pw.pw_name, pw_uid := pw.pw_uid, pw_gid := pw.pw_gid, pw_dir := pw.pw_dir }

/-- Lines 334-382 of `service_request`: the reply for the value of `con_uid`
that the lookups left. -/
def service_request_reply (env : Env) (outsock lport fport : Nat)
    (laddr faddr : sockaddr_storage) (con_uid : Nat) : List Event :=
  if con_uid = MISSING_UID then
    match env.failuser with
    | some fu =>
      [Event.sockprintf outsock
        (toString lport ++ "," ++ toString fport ++ ":USERID:" ++ env.ret_os ++ ":" ++ fu ++
          "\r\n")]
    | none =>
      [Event.sockprintf outsock
        (toString lport ++ "," ++ toString fport ++ ":ERROR:" ++ ERROR "NO-USER" ++ "\r\n")]
  else
    match env.getpwuid con_uid with
    | none =>
      [Event.getpwuid con_uid, Event.sockprintf outsock
        (toString lport ++ "," ++ toString fport ++ ":ERROR:" ++ ERROR "NO-USER" ++ "\r\n")]
    | some pw =>
      let pwd := copy_pw pw
      let r := env.get_ident pwd lport fport laddr faddr
      if r.ret = -1 then
        [Event.getpwuid con_uid, Event.get_ident pwd.pw_uid, Event.sockprintf outsock
          (toString lport ++ "," ++ toString fport ++ ":ERROR:" ++ ERROR "HIDDEN-USER" ++
            "\r\n")]
      else
        [Event.getpwuid con_uid, Event.get_ident pwd.pw_uid, Event.sockprintf outsock
          (toString lport ++ "," ++ toString fport ++ ":USERID:" ++ env.ret_os ++ ":" ++
            r.suser ++ "\r\n")]

/-- Lines 290-332 of `service_request`: the lookups in their order. The first
component is `none` when the function returns among them (the user database
answered, or `masq` returned true), else the value of `con_uid` at line 334. -/
def service_request_lookups (fuel : Nat) (env : Env) (insock lport fport : Nat)
    (laddr faddr laddr6 faddr6 : sockaddr_storage) : Option (Option Nat × List Event) :=
  match lookup_udb env insock lport fport laddr faddr MISSING_UID with
  | (none, t0) => some (none, t0)
  | (some u0, t0) =>
    match lookup_user4 fuel env lport fport laddr faddr u0 with
    | none => none
    | some (u1, t1) =>
      let r2 := lookup_mapped6 env lport fport laddr faddr u1
      let r3 := lookup_user6 env lport fport laddr6 faddr6 r2.1
      match lookup_masq fuel env insock lport fport laddr faddr r3.1 with
      | none => none
      | some (true, t4) => some (none, t0 ++ t1 ++ r2.2 ++ r3.2 ++ t4)
      | some (false, t4) => some (some r3.1, t0 ++ t1 ++ r2.2 ++ r3.2 ++ t4)

/-- Lines 290-382 of `service_request`: the lookups and the reply, for
validated ports. -/
def service_request_resolve (fuel : Nat) (env : Env) (insock outsock lport fport : Nat)
    (laddr faddr laddr6 faddr6 : sockaddr_storage) : Option (Int × List Event) :=
  match service_request_lookups fuel env insock lport fport laddr faddr laddr6 faddr6 with
  | none => none
  | some (none, tr) => some (0, tr)
  | some (some con_uid, tr) =>
    some (0, tr ++ service_request_reply env outsock lport fport laddr faddr con_uid)

/-- The local address after lines 243-258: the IPv4 form when the socket is
an IPv6 one carrying a mapped address. -/
def v4_of_mapped (env : Env) (laddr0 a : sockaddr_storage) : sockaddr_storage :=
  if env.WANT_IPV6 && laddr0.ss_family == AF_INET6 && IN6_IS_ADDR_V4MAPPED laddr0.sin6_addr then
    sin_setv4 (sin_extractv4 a.sin6_addr) a
  else a

/-- The function `service_request`: read the client data and send the ident
reply. The result is the return value and the trace of effects; `none` when a
kernel list walk does not finish within the fuel. -/
def service_request (fuel : Nat) (env : Env) (insock outsock : Nat) :
    Option (Int × List Event) :=
  match env.getpeername insock with
  | none => some (-1, [])
  | some faddr0 =>
    match env.getsockname insock with
    | none => some (-1, [])
    | some laddr0 =>
      let laddr6 := laddr0
      let faddr6 := faddr0
      let laddr := v4_of_mapped env laddr0 laddr0
      let faddr := v4_of_mapped env laddr0 faddr0
      match env.sock_read insock with
      | none => some (-1, [])
      | some line =>
        let sc := sscanf line.data
        if sc.len < 2 then some (0, [])
        else if !VALID_PORT sc.lport_temp || !VALID_PORT sc.fport_temp then
          some (0, [Event.sockprintf outsock
            (toString sc.lport_temp ++ "," ++ toString sc.fport_temp ++ ":ERROR:" ++
              ERROR "INVALID-PORT" ++ "\r\n")])
        else
          service_request_resolve fuel env insock outsock (in_port_t sc.lport_temp)
            (in_port_t sc.fport_temp) laddr faddr laddr6 faddr6

/-! ## `oidentd.c`: the accept loop of `main` and `sig_child` -/

/-- The process-wide counters of `oidentd.c`, both `u_int32_t` (values below
2^32 = 4294967296). -/
structure Server where
  connection_limit : Nat
  current_connections : Nat
deriving DecidableEq, Repr

/-- What the parent does with an accepted connection. `fork connectfd run` is
the child created for it, which runs `service_request(connectfd, connectfd)`
with the outcome `run` and exits. -/
inductive MainEvent where
  | close (fd : Int)
  | fork (connectfd : Int) (run : Option (Int × List Event))
deriving DecidableEq, Repr

/-- Lines 175-202 of `main`: the body of the inner `for` loop for a listener
that is ready, where `accept` returned `connectfd`, the connection, if it is
served, is the one described by `env`, and `forked` tells whether `fork`
created a child (it returns -1 in the parent otherwise). -/
def accept_step (fuel : Nat) (env : Env) (s : Server) (connectfd : Int) (forked : Bool) :
    Server × List MainEvent :=
  if connectfd = -1 then (s, [])
  else if s.current_connections ≥ s.connection_limit then (s, [MainEvent.close connectfd])
  else
    ({ s with current_connections := (s.current_connections + 1) % 4294967296 },
      if forked then
        [MainEvent.fork connectfd (service_request fuel env connectfd.toNat connectfd.toNat),
          MainEvent.close connectfd]
      else [MainEvent.close connectfd])

/-- The statement `--current_connections` on the `u_int32_t` counter: from 0
it wraps to 2^32 - 1 = 4294967295. -/
def decrement_connections (s : Server) : Server :=
  { s with current_connections :=
      if s.current_connections = 0 then 4294967295 else s.current_connections - 1 }

/-- The handler `sig_child`, when `waitpid` reaps the given number of
children: one decrement of the counter for each. -/
def sig_child (s : Server) : Nat → Server
  | 0 => s
  | reaped + 1 => sig_child (decrement_connections s) reaped

/-- The bytes written to a connection by the events of the accept loop: those
its child wrote to it, as the parent writes to no connection. -/
def main_written (fd : Int) : List MainEvent → List String
  | [] => []
  | MainEvent.close _ :: evs => main_written fd evs
  | MainEvent.fork connectfd run :: evs =>
    (if connectfd = fd then
      match run with
      | some (_, tr) => written fd.toNat tr
      | none => []
    else []) ++ main_written fd evs

/-- Whether the events of the accept loop start a child for a connection. -/
def main_forked (fd : Int) : List MainEvent → Bool
  | [] => false
  | MainEvent.close _ :: evs => main_forked fd evs
  | MainEvent.fork connectfd _ :: evs => decide (connectfd = fd) || main_forked fd evs

/-- What makes the parent act: a listener is ready and `accept` returns
`connectfd` for the connection described by `env` (and `fork`, if it is
reached, creates a child or not), or `SIGCHLD` arrives and `waitpid` reaps the
given number of children. -/
inductive MainStep where
  | accept (connectfd : Int) (env : Env) (forked : Bool)
  | sigchld (reaped : Nat)

/-- The effect of one step on the counters, and the events of the step. -/
def main_step (fuel : Nat) (s : Server) : MainStep → Server × List MainEvent
  | MainStep.accept connectfd env forked => accept_step fuel env s connectfd forked
  | MainStep.sigchld reaped => (sig_child s reaped, [])

/-- A run of the parent: the final counters and the events of each step. -/
def main_run (fuel : Nat) (s : Server) : List MainStep → Server × List (List MainEvent)
  | [] => (s, [])
  | st :: rest =>
    let r := main_step fuel s st
    let rs := main_run fuel r.1 rest
    (rs.1, r.2 :: rs.2)

/-- Whether, along a run, `waitpid` never reaps more children than the
counter counts at that time. -/
def reaps_counted (fuel : Nat) (s : Server) : List MainStep → Bool
  | [] => true
  | st :: rest =>
    (match st with
      | MainStep.accept _ _ _ => true
      | MainStep.sigchld reaped => decide (reaped ≤ s.current_connections)) &&
      reaps_counted fuel (main_step fuel s st).1 rest

/-! ## Kernel lists as sequences of entries -/

/-- The connection table entries met on the way from the address `start` to
the address `stop`: each is read at an address other than the head of the
queue, and its `cqe_next` link leads to the next. -/
def inpcb_walk (kmem : Kmem) (head : Nat) : Nat → List inpcb → Nat → Bool
  | start, [], stop => start == stop
  | start, p :: ps, stop =>
    start != head && kmem.read_inpcb start == some p && inpcb_walk kmem head p.cqe_next ps stop

/-- The NAT entries met on the way from the address `start` to the address
`stop`: each is read at a non-null address, and its `nat_next` link leads to
the next. -/
def nat_walk (kmem : Kmem) : Nat → List nat_t → Nat → Bool
  | start, [], stop => start == stop
  | start, p :: ps, stop =>
    start != 0 && kmem.read_nat start == some p && nat_walk kmem p.nat_next ps stop

/-! ## Fixtures -/

/-- Kernel memory in which every read fails. -/
def Kmem.unreadable : Kmem :=
  { n_tcb := 1000, n_natlist := 2000,
    read_inpcbtable := fun _ => none, read_inpcb := fun _ => none,
    read_socket := fun _ => none, read_ptr := fun _ => none, read_nat := fun _ => none }

/-- An IPv4 socket address. -/
def ipv4 (a4 : Nat) : sockaddr_storage :=
  { ss_len := 16, ss_family := AF_INET, sin_addr := a4, sin6_addr := 0 }

/-- The address 192.0.2.1 of the fixture host. -/
def host_ip : Nat := 3221225985

/-- The address 198.51.100.7 of the fixture peer. -/
def peer_ip : Nat := 3325256711

/-- The password database of the fixtures: uid 1000 is alice, uid 1001 is
bob, uid 1002 is carol. -/
def fixture_getpwuid (uid : Nat) : Option passwd :=
  if uid = 1000 then some { pw_name := "alice", pw_uid := 1000, pw_gid := 100, pw_dir := "/home/alice" }
  else if uid = 1001 then some { pw_name := "bob", pw_uid := 1001, pw_gid := 100, pw_dir := "/home/bob" }
  else if uid = 1002 then some { pw_name := "carol", pw_uid := 1002, pw_gid := 100, pw_dir := "/home/carol" }
  else none

/-- The identity policy of the fixtures: bob and carol are hidden, everyone
else is shown under the login name. -/
def fixture_get_ident (pwd : passwd) : ident_res :=
  if pwd.pw_uid = 1001 ∨ pwd.pw_uid = 1002 then { ret := -1, suser := "" }
  else { ret := 0, suser := pwd.pw_name }

/-- A little-endian IPv4 host with every option off, os-token `UNIX`, no
fallback identity, the given kernel memory and the given request line. -/
def fixture (kmem : Kmem) (line : String) : Env :=
  { HAVE_LIBUDB := false, WANT_IPV6 := false, little_endian := true,
    opt_USEUDB := false, opt_MASQ := false, opt_PROXY := false,
    opt_FORWARD := false, opt_MASQ_OVERRIDE := false,
    ret_os := "UNIX", failuser := none, proxy := ipv4 0,
    getpeername := fun _ => some (ipv4 peer_ip),
    getsockname := fun _ => some (ipv4 host_ip),
    sock_read := fun _ => some line,
    kmem := kmem,
    sysctl_ident := fun _ _ _ _ => { error := -1, ruid := 0 },
    get_udb_user := fun _ _ _ _ _ => { status := 0, uid := MISSING_UID },
    getpwuid := fixture_getpwuid,
    get_ident := fun pwd _ _ _ _ => fixture_get_ident pwd,
    find_masq_entry := fun _ => { ret := -1, user := "", os := "" },
    fwd_request := fun _ _ _ _ _ _ => -1 }

/-- The fixture with a fallback identity configured. -/
def fixture_failuser (kmem : Kmem) (line fu : String) : Env :=
  { fixture kmem line with failuser := some fu }

/-- Kernel memory whose connection table holds one entry, between the
fixture host and peer with the given local and foreign port (host byte
order), whose socket has the given state and owner. -/
def one_connection (inp_lport inp_fport so_state so_ruid : Nat) : Kmem :=
  { Kmem.unreadable with
    read_inpcbtable := fun a => if a = 1000 then some { cqh_first := 1100 } else none,
    read_inpcb := fun a =>
      if a = 1100 then
        some { inp_faddr := peer_ip, inp_laddr := host_ip, inp_fport := bswap16 inp_fport,
               inp_lport := bswap16 inp_lport, inp_socket := 5000, cqe_next := 1000 }
      else none,
    read_socket := fun a =>
      if a = 5000 then some { so_state := so_state, so_ruid := so_ruid } else none }

/-- Kernel memory whose connection table holds two entries between the
fixture host and peer, in this order, each with its local and foreign port
(host byte order) and the state and owner of its socket. -/
def two_connections (inp_lport1 inp_fport1 so_state1 so_ruid1
    inp_lport2 inp_fport2 so_state2 so_ruid2 : Nat) : Kmem :=
  { Kmem.unreadable with
    read_inpcbtable := fun a => if a = 1000 then some { cqh_first := 1100 } else none,
    read_inpcb := fun a =>
      if a = 1100 then
        some { inp_faddr := peer_ip, inp_laddr := host_ip, inp_fport := bswap16 inp_fport1,
               inp_lport := bswap16 inp_lport1, inp_socket := 5000, cqe_next := 1200 }
      else if a = 1200 then
        some { inp_faddr := peer_ip, inp_laddr := host_ip, inp_fport := bswap16 inp_fport2,
               inp_lport := bswap16 inp_lport2, inp_socket := 5100, cqe_next := 1000 }
      else none,
    read_socket := fun a =>
      if a = 5000 then some { so_state := so_state1, so_ruid := so_ruid1 }
      else if a = 5100 then some { so_state := so_state2, so_ruid := so_ruid2 }
      else none }

/-- The address 10.0.0.5 of a first host behind the NAT gateway. -/
def inside_ip1 : Nat := 167772165

/-- The address 10.0.0.6 of a second host behind the NAT gateway. -/
def inside_ip2 : Nat := 167772166

/-- The override table of the fixtures: the host 10.0.0.6 is registered as
user `dave` on `LINUX`, no other host is registered. -/
def fixture_find_masq_entry (ss : sockaddr_storage) : masq_entry :=
  if ss.sin_addr = inside_ip2 then { ret := 0, user := "dave", os := "LINUX" }
  else { ret := -1, user := "", os := "" }

/-- The fixture as a NAT gateway: `MASQ` enabled, forwarding disabled, with
the override table of the fixtures. -/
def fixture_masq (kmem : Kmem) (line : String) : Env :=
  { fixture kmem line with opt_MASQ := true, find_masq_entry := fixture_find_masq_entry }

/-- A TCP NAT entry whose outside tuple is that of the fixture host and peer
with the given ports (host byte order), for the given inside host. -/
def nat_entry (outport oport inip next : Nat) : nat_t :=
  { nat_p := IPPROTO_TCP, nat_outport := bswap16 outport, nat_oport := bswap16 oport,
    nat_inport := bswap16 outport, nat_outip := host_ip, nat_oip := peer_ip,
    nat_inip := inip, nat_next := next }

/-- The fixture as a NAT gateway in proxy mode, the fixture peer being the
proxy. -/
def fixture_masq_proxy (kmem : Kmem) (line : String) : Env :=
  { fixture_masq kmem line with opt_PROXY := true, proxy := ipv4 peer_ip }

/-- The address 203.0.113.10 of a first remote server. -/
def server_ip1 : Nat := 3405803786

/-- The address 203.0.113.20 of a second remote server. -/
def server_ip2 : Nat := 3405803796

/-- Kernel memory whose NAT list holds two entries with the outside ports
4321 and 23 on the fixture host, to two different remote servers: the first
for the unregistered host 10.0.0.5, the second for the registered host
10.0.0.6. -/
def nat_two_entries : Kmem :=
  { Kmem.unreadable with
    read_ptr := fun a => if a = 2000 then some 3000 else none,
    read_nat := fun a =>
      if a = 3000 then some { nat_entry 4321 23 inside_ip1 3100 with nat_oip := server_ip1 }
      else if a = 3100 then some { nat_entry 4321 23 inside_ip2 0 with nat_oip := server_ip2 }
      else none }

/-- Kernel memory whose NAT list holds three entries: two for other outside
ports, then the one for the ports 4321 and 23 of the registered host
10.0.0.6. -/
def nat_three_entries : Kmem :=
  { Kmem.unreadable with
    read_ptr := fun a => if a = 2000 then some 3000 else none,
    read_nat := fun a =>
      if a = 3000 then some (nat_entry 8080 23 inside_ip1 3100)
      else if a = 3100 then some (nat_entry 4321 25 inside_ip2 3200)
      else if a = 3200 then some (nat_entry 4321 23 inside_ip2 0)
      else none }

/-- Kernel memory whose NAT list is a cycle of one UDP entry that links to
itself. -/
def nat_cycle : Kmem :=
  { Kmem.unreadable with
    read_ptr := fun a => if a = 2000 then some 3000 else none,
    read_nat := fun a =>
      if a = 3000 then
        some { nat_p := 17, nat_outport := 0, nat_oport := 0, nat_inport := 0,
               nat_outip := 0, nat_oip := 0, nat_inip := 0, nat_next := 3000 }
      else none }

/-- Whether the NAT list from the address `np` reaches a null link or an
entry that cannot be read after at most `n` links. -/
def nat_chain_ends (kmem : Kmem) : Nat → Nat → Bool
  | 0, np => np == 0 || (kmem.read_nat np).isNone
  | n + 1, np =>
    np == 0 ||
      match kmem.read_nat np with
      | none => true
      | some nat => nat_chain_ends kmem n nat.nat_next

/-- The fixture as a dual-stack NAT gateway: `WANT_IPV6` and `MASQ` enabled,
with a kernel whose `TCPCTL_IDENT` lookup answers every query with the given
owner (`4294967295` for none). The NAT list of the kernel memory is whatever
`kmem` holds. -/
def fixture_dual (kmem : Kmem) (line : String) (ruid6 : Nat) : Env :=
  { fixture_masq kmem line with
    WANT_IPV6 := true,
    sysctl_ident := fun _ _ _ _ => { error := 0, ruid := ruid6 } }

/-- The connection table with one connection (local port 4321, remote port
23, connected out, owned by the given uid) next to the cyclic NAT list. -/
def one_connection_nat_cycle (so_ruid : Nat) : Kmem :=
  { one_connection 4321 23 4098 so_ruid with
    read_ptr := nat_cycle.read_ptr, read_nat := nat_cycle.read_nat }

/-- An IPv6 socket address. -/
def ipv6 (a6 : Nat) : sockaddr_storage :=
  { ss_len := 28, ss_family := AF_INET6, sin_addr := 0, sin6_addr := a6 }

end Oidentd

/-! # Properties -/

namespace Oidentd

/-! ## Request validation (C1, C5) -/

/-- The port check on the values that `sscanf` stored: when two integers were
converted and at least one of the two stored `int` values lies outside
1..65535, `service_request` writes the line
`<first>,<second>:ERROR:INVALID-PORT` with the stored values and does nothing
else: the trace holds that one write and no use of a resolution backend, for
every fuel. -/
theorem service_request_invalid_port (fuel : Nat) (env : Env) (insock outsock : Nat)
    (faddr0 laddr0 : sockaddr_storage) (line : String)
    (hpeer : env.getpeername insock = some faddr0)
    (hsock : env.getsockname insock = some laddr0)
    (hread : env.sock_read insock = some line)
    (hlen : (sscanf line.data).len = 2)
    (hport : ¬ (1 ≤ (sscanf line.data).lport_temp ∧ (sscanf line.data).lport_temp ≤ 65535) ∨
      ¬ (1 ≤ (sscanf line.data).fport_temp ∧ (sscanf line.data).fport_temp ≤ 65535)) :
    service_request fuel env insock outsock =
      some (0, [Event.sockprintf outsock
        (toString (sscanf line.data).lport_temp ++ "," ++
          toString (sscanf line.data).fport_temp ++ ":ERROR:INVALID-PORT\r\n")]) := by
  have hv : (!VALID_PORT (sscanf line.data).lport_temp ||
      !VALID_PORT (sscanf line.data).fport_temp) = true := by
    simp only [VALID_PORT, Bool.or_eq_true, Bool.not_eq_true', Bool.and_eq_false_iff,
      decide_eq_false_iff_not]
    rcases hport with h | h
    · left; by_contra hc; push_neg at hc; exact h ⟨by omega, by omega⟩
    · right; by_contra hc; push_neg at hc; exact h ⟨by omega, by omega⟩
  have hs : ":ERROR:" ++ ERROR "INVALID-PORT" ++ "\r\n" = ":ERROR:INVALID-PORT\r\n" := by decide
  simp only [service_request, hpeer, hsock, hread, hlen, hv]
  simp only [String.append_assoc] at hs ⊢
  simp [hs]

/-- The request `99999, 23`, whose first integer fits an `int`, is answered
`99999,23:ERROR:INVALID-PORT` and no backend is used. -/
theorem service_request_invalid_port_witness :
    service_request 0 (fixture Kmem.unreadable "99999, 23\r\n") 3 3 =
      some (0, [Event.sockprintf 3 "99999,23:ERROR:INVALID-PORT\r\n"]) :=
  service_request_invalid_port 0 (fixture Kmem.unreadable "99999, 23\r\n") 3 3
    (ipv4 peer_ip) (ipv4 host_ip) "99999, 23\r\n" rfl rfl rfl (by decide) (by decide)

/-- C1, the code at the failing input: the request `4294967297, 23` carries
the integer 4294967297 = 2^32 + 1, which lies outside 1..65535. The `%d`
conversion stores 1 in `lport_temp`, the port check passes, and
`service_request` goes on to the lookups: on a host whose kernel memory
cannot be read it calls `get_user4` and answers `1,23:ERROR:NO-USER`, and on a
host with a connection from local port 1 to remote port 23 owned by uid 1000
(alice) it answers `1,23:USERID:UNIX:alice`. In neither run is the reply
an INVALID-PORT error, and in both a resolution backend is used. -/
theorem service_request_port_wraps :
    store_int false 4294967297 = 1 ∧
      sscanf "4294967297, 23\r\n".data = { len := 2, lport_temp := 1, fport_temp := 23 } ∧
      service_request 1 (fixture Kmem.unreadable "4294967297, 23\r\n") 3 3 =
        some (0, [Event.get_user4 256 5888, Event.getbuf 1000,
          Event.sockprintf 3 "1,23:ERROR:NO-USER\r\n"]) ∧
      service_request 1 (fixture (one_connection 1 23 4098 1000) "4294967297, 23\r\n") 3 3 =
        some (0, [Event.get_user4 256 5888, Event.getbuf 1000, Event.getbuf 1100,
          Event.getbuf 5000, Event.getpwuid 1000, Event.get_ident 1000,
          Event.sockprintf 3 "1,23:USERID:UNIX:alice\r\n"]) := by
  decide

/-- C5: a request line from which the scan converts fewer than two integers
makes `service_request` return (with 0) after no write and no use of a
resolution backend: the trace is empty, for every fuel. -/
theorem service_request_malformed (fuel : Nat) (env : Env) (insock outsock : Nat)
    (faddr0 laddr0 : sockaddr_storage) (line : String)
    (hpeer : env.getpeername insock = some faddr0)
    (hsock : env.getsockname insock = some laddr0)
    (hread : env.sock_read insock = some line)
    (hlen : (sscanf line.data).len < 2) :
    service_request fuel env insock outsock = some (0, []) := by
  simp [service_request, hpeer, hsock, hread, hlen]

/-- C5, witness: the request `4321 23` (no comma) gets no reply. -/
theorem service_request_malformed_witness :
    (sscanf "4321 23\r\n".data).len < 2 ∧
      service_request 0 (fixture Kmem.unreadable "4321 23\r\n") 3 3 = some (0, []) :=
  ⟨by decide, service_request_malformed 0 (fixture Kmem.unreadable "4321 23\r\n") 3 3
    (ipv4 peer_ip) (ipv4 host_ip) "4321 23\r\n" rfl rfl rfl (by decide)⟩

/-! ## Traces of the lookups -/

theorem getlist4_loop_no_write (env : Env) (k l f la fa : Nat) :
    ∀ (fuel kpcbp sockp : Nat) (tr : List Event),
      getlist4_loop env k l f la fa fuel kpcbp = some (sockp, tr) →
      tr.filter Event.is_write = [] := by
  intro fuel
  induction fuel with
  | zero => intro _ _ _ h; simp [getlist4_loop] at h
  | succ n ih =>
    intro kpcbp sockp tr h
    simp only [getlist4_loop] at h
    split at h
    · simp only [Option.some.injEq, Prod.mk.injEq] at h
      rw [← h.2]; rfl
    · split at h
      · simp only [Option.some.injEq, Prod.mk.injEq] at h
        rw [← h.2]; rfl
      · split at h
        · simp only [Option.some.injEq, Prod.mk.injEq] at h
          rw [← h.2]; rfl
        · split at h
          · simp only [Option.some.injEq, Prod.mk.injEq] at h
            rw [← h.2]; rfl
          · split at h
            · simp at h
            · rename_i sockp1 tr1 hrec
              simp only [Option.some.injEq, Prod.mk.injEq] at h
              rw [← h.2]
              simp [List.filter_cons, Event.is_write, ih _ _ _ hrec]

theorem get_user4_no_write (fuel : Nat) (env : Env) (lport fport : Nat)
    (laddr faddr : sockaddr_storage) (uid : Nat) (tr : List Event)
    (h : get_user4 fuel env lport fport laddr faddr = some (uid, tr)) :
    tr.filter Event.is_write = [] := by
  simp only [get_user4, getlist4] at h
  split at h
  · simp only [Option.some.injEq, Prod.mk.injEq] at h
    rw [← h.2]; rfl
  · split at h
    · simp at h
    · rename_i sockp tr1 hloop
      have h1 := getlist4_loop_no_write _ _ _ _ _ _ _ _ _ _ hloop
      split at h
      · simp only [Option.some.injEq, Prod.mk.injEq] at h
        rw [← h.2]; simp [List.filter_cons, Event.is_write, h1]
      · split at h
        · simp only [Option.some.injEq, Prod.mk.injEq] at h
          rw [← h.2]; simp [List.filter_cons, Event.is_write, h1]
        · split at h <;>
          · simp only [Option.some.injEq, Prod.mk.injEq] at h
            rw [← h.2]; simp [List.filter_cons, Event.is_write, h1]

theorem get_user6_no_write (env : Env) (lport fport : Nat) (laddr faddr : sockaddr_storage) :
    (get_user6 env lport fport laddr faddr).2.filter Event.is_write = [] := by
  simp only [get_user6]
  split
  · rfl
  · split
    · rfl
    · split <;> rfl

theorem masq_loop_false_no_write (env : Env) (sock : Nat) (laddr faddr : sockaddr_storage) :
    ∀ (fuel np lport fport : Nat) (tr : List Event),
      masq_loop env sock laddr faddr fuel np lport fport = some (false, tr) →
      tr.filter Event.is_write = [] := by
  intro fuel
  induction fuel with
  | zero => intro _ _ _ _ h; simp [masq_loop] at h
  | succ n ih =>
    intro np lport fport tr h
    simp only [masq_loop] at h
    split at h
    · simp only [Option.some.injEq, Prod.mk.injEq] at h
      rw [← h.2]; rfl
    · split at h
      · simp only [Option.some.injEq, Prod.mk.injEq] at h
        rw [← h.2]; rfl
      · split at h
        · split at h
          · simp at h
          · rename_i r tr1 hrec
            simp only [Option.some.injEq, Prod.mk.injEq] at h
            obtain ⟨hr, htr⟩ := h
            subst hr
            rw [← htr]
            simp [List.filter_cons, Event.is_write, ih _ _ _ _ hrec]
        · split at h
          · simp at h
          · split at h
            · simp at h
            · split at h
              · simp at h
              · rename_i r tr1 hrec
                simp only [Option.some.injEq, Prod.mk.injEq] at h
                obtain ⟨hr, htr⟩ := h
                subst hr
                rw [← htr]
                have := ih _ _ _ _ hrec
                split <;> simp [List.filter_cons, Event.is_write, this]

theorem masq_false_no_write (fuel : Nat) (env : Env) (sock lport fport : Nat)
    (laddr faddr : sockaddr_storage) (tr : List Event)
    (h : masq fuel env sock lport fport laddr faddr = some (false, tr)) :
    tr.filter Event.is_write = [] := by
  simp only [masq] at h
  split at h
  · simp only [Option.some.injEq, Prod.mk.injEq] at h
    rw [← h.2]; rfl
  · split at h
    · simp only [Option.some.injEq, Prod.mk.injEq] at h
      rw [← h.2]; rfl
    · split at h
      · simp at h
      · rename_i r tr1 hrec
        simp only [Option.some.injEq, Prod.mk.injEq] at h
        obtain ⟨hr, htr⟩ := h
        subst hr
        rw [← htr]
        simp [List.filter_cons, Event.is_write, masq_loop_false_no_write _ _ _ _ _ _ _ _ _ hrec]

theorem in_port_t_of_valid (p : Nat) (h : p ≤ 65535) : in_port_t (p : Int) = p := by
  unfold in_port_t
  have : ((p : Int) % 65536) = (p : Int) := Int.emod_eq_of_lt (by omega) (by omega)
  rw [this]; simp

theorem VALID_PORT_of_range (p : Nat) (h1 : 1 ≤ p) (h2 : p ≤ 65535) :
    VALID_PORT (p : Int) = true := by
  simp only [VALID_PORT, Bool.and_eq_true, decide_eq_true_eq]
  omega

/-- For a request line that parses as two valid ports, `service_request` is
the lookups and the reply of lines 290-382. -/
theorem service_request_valid (fuel : Nat) (env : Env) (insock outsock : Nat)
    (faddr0 laddr0 : sockaddr_storage) (line : String) (lport fport : Nat)
    (hpeer : env.getpeername insock = some faddr0)
    (hsock : env.getsockname insock = some laddr0)
    (hread : env.sock_read insock = some line)
    (hscan : sscanf line.data = { len := 2, lport_temp := lport, fport_temp := fport })
    (hl : 1 ≤ lport ∧ lport ≤ 65535) (hf : 1 ≤ fport ∧ fport ≤ 65535) :
    service_request fuel env insock outsock =
      service_request_resolve fuel env insock outsock lport fport
        (v4_of_mapped env laddr0 laddr0) (v4_of_mapped env laddr0 faddr0) laddr0 faddr0 := by
  simp [service_request, hpeer, hsock, hread, hscan, VALID_PORT_of_range _ hl.1 hl.2,
    VALID_PORT_of_range _ hf.1 hf.2, in_port_t_of_valid _ hl.2, in_port_t_of_valid _ hf.2]

theorem lookup_udb_no_write (env : Env) (insock lport fport : Nat)
    (laddr faddr : sockaddr_storage) (u : Nat) :
    (lookup_udb env insock lport fport laddr faddr u).2.filter Event.is_write = [] := by
  simp only [lookup_udb]
  split
  · split <;> rfl
  · rfl

theorem lookup_user4_no_write (fuel : Nat) (env : Env) (lport fport : Nat)
    (laddr faddr : sockaddr_storage) (u u1 : Nat) (tr : List Event)
    (h : lookup_user4 fuel env lport fport laddr faddr u = some (u1, tr)) :
    tr.filter Event.is_write = [] := by
  simp only [lookup_user4] at h
  split at h
  · split at h
    · simp at h
    · rename_i uid t hg
      simp only [Option.some.injEq, Prod.mk.injEq] at h
      rw [← h.2]
      simp [List.filter_cons, Event.is_write, get_user4_no_write _ _ _ _ _ _ _ _ hg]
  · simp only [Option.some.injEq, Prod.mk.injEq] at h
    rw [← h.2]; rfl

theorem lookup_mapped6_no_write (env : Env) (lport fport : Nat)
    (laddr faddr : sockaddr_storage) (u : Nat) :
    (lookup_mapped6 env lport fport laddr faddr u).2.filter Event.is_write = [] := by
  simp only [lookup_mapped6]
  split
  · simp [List.filter_cons, Event.is_write, get_user6_no_write]
  · rfl

theorem lookup_user6_no_write (env : Env) (lport fport : Nat)
    (laddr faddr : sockaddr_storage) (u : Nat) :
    (lookup_user6 env lport fport laddr faddr u).2.filter Event.is_write = [] := by
  simp only [lookup_user6]
  split
  · simp [List.filter_cons, Event.is_write, get_user6_no_write]
  · rfl

theorem lookup_masq_false_no_write (fuel : Nat) (env : Env) (insock lport fport : Nat)
    (laddr faddr : sockaddr_storage) (u : Nat) (tr : List Event)
    (h : lookup_masq fuel env insock lport fport laddr faddr u = some (false, tr)) :
    tr.filter Event.is_write = [] := by
  simp only [lookup_masq] at h
  split at h
  · split at h
    · simp at h
    · rename_i r t hg
      simp only [Option.some.injEq, Prod.mk.injEq] at h
      obtain ⟨hr, htr⟩ := h
      subst hr
      rw [← htr]
      simp [List.filter_cons, Event.is_write, masq_false_no_write _ _ _ _ _ _ _ _ hg]
  · simp only [Option.some.injEq, Prod.mk.injEq] at h
    rw [← h.2]; rfl

/-- The lookups write nothing to any socket when they leave a value of
`con_uid` for the reply. -/
theorem service_request_lookups_no_write (fuel : Nat) (env : Env) (insock lport fport : Nat)
    (laddr faddr laddr6 faddr6 : sockaddr_storage) (u : Nat) (tr : List Event)
    (h : service_request_lookups fuel env insock lport fport laddr faddr laddr6 faddr6 =
      some (some u, tr)) :
    tr.filter Event.is_write = [] := by
  simp only [service_request_lookups] at h
  split at h
  · simp at h
  · rename_i u0 t0 hudb
    have h0 : t0.filter Event.is_write = [] := by
      have := lookup_udb_no_write env insock lport fport laddr faddr MISSING_UID
      rw [hudb] at this; exact this
    split at h
    · simp at h
    · rename_i u1 t1 h4
      have h1 := lookup_user4_no_write _ _ _ _ _ _ _ _ _ h4
      split at h
      · simp at h
      · simp at h
      · rename_i t4 hm
        have h4w := lookup_masq_false_no_write _ _ _ _ _ _ _ _ _ hm
        simp only [Option.some.injEq, Prod.mk.injEq] at h
        rw [← h.2]
        simp [List.filter_append, h0, h1, h4w, lookup_mapped6_no_write, lookup_user6_no_write]

/-- The writes of the reply stage when no owner was found. -/
theorem service_request_reply_missing (env : Env) (outsock lport fport : Nat)
    (laddr faddr : sockaddr_storage) :
    service_request_reply env outsock lport fport laddr faddr MISSING_UID =
      [Event.sockprintf outsock
        (match env.failuser with
          | none => toString lport ++ "," ++ toString fport ++ ":ERROR:NO-USER\r\n"
          | some fu =>
            toString lport ++ "," ++ toString fport ++ ":USERID:" ++ env.ret_os ++ ":" ++ fu ++
              "\r\n")] := by
  have hs : ":ERROR:" ++ ERROR "NO-USER" ++ "\r\n" = ":ERROR:NO-USER\r\n" := by decide
  simp only [service_request_reply, if_true]
  cases env.failuser with
  | none =>
    simp only [String.append_assoc] at hs ⊢
    simp [hs]
  | some fu => rfl

/-- When every lookup that is attempted yields no owner, the lookups leave
`con_uid = MISSING_UID`. -/
theorem service_request_lookups_missing (fuel : Nat) (env : Env) (insock lport fport : Nat)
    (laddr faddr laddr6 faddr6 : sockaddr_storage)
    (hudb : (env.HAVE_LIBUDB && env.opt_USEUDB) = true →
      (env.get_udb_user lport fport laddr faddr insock).status ≠ 2 ∧
      (env.get_udb_user lport fport laddr faddr insock).uid = MISSING_UID)
    (h4 : laddr.ss_family = AF_INET → ∃ t,
      get_user4 fuel env (htons env.little_endian lport) (htons env.little_endian fport)
        laddr faddr = some (MISSING_UID, t))
    (h6m : env.WANT_IPV6 = true → laddr.ss_family = AF_INET →
      (get_user6 env (htons env.little_endian lport) (htons env.little_endian fport)
        (sin_setv6 (sin_mapv4to6 laddr.sin_addr) sockaddr_storage.uninit)
        (sin_setv6 (sin_mapv4to6 faddr.sin_addr) sockaddr_storage.uninit)).1 = MISSING_UID)
    (h6 : env.WANT_IPV6 = true → laddr6.ss_family = AF_INET6 →
      (get_user6 env (htons env.little_endian lport) (htons env.little_endian fport)
        laddr6 faddr6).1 = MISSING_UID)
    (hm : env.opt_MASQ = true → laddr.ss_family = AF_INET → ∃ t,
      masq fuel env insock (htons env.little_endian lport) (htons env.little_endian fport)
        laddr faddr = some (false, t)) :
    ∃ tr, service_request_lookups fuel env insock lport fport laddr faddr laddr6 faddr6 =
      some (some MISSING_UID, tr) := by
  have e0 : ∃ t0, lookup_udb env insock lport fport laddr faddr MISSING_UID =
      (some MISSING_UID, t0) := by
    simp only [lookup_udb]
    by_cases hu : (env.HAVE_LIBUDB && env.opt_USEUDB) = true
    · obtain ⟨hs, hmiss⟩ := hudb hu
      simp [hu, hs, hmiss]
    · simp [hu]
  obtain ⟨t0, e0⟩ := e0
  have e1 : ∃ t1, lookup_user4 fuel env lport fport laddr faddr MISSING_UID =
      some (MISSING_UID, t1) := by
    simp only [lookup_user4]
    by_cases hfam : laddr.ss_family = AF_INET
    · obtain ⟨t, ht⟩ := h4 hfam
      simp [hfam, ht]
    · simp [hfam]
  obtain ⟨t1, e1⟩ := e1
  have e2 : (lookup_mapped6 env lport fport laddr faddr MISSING_UID).1 = MISSING_UID := by
    simp only [lookup_mapped6]
    split
    · rename_i hc; exact h6m hc.1 hc.2.2
    · rfl
  have e3 : (lookup_user6 env lport fport laddr6 faddr6 MISSING_UID).1 = MISSING_UID := by
    simp only [lookup_user6]
    split
    · rename_i hc; exact h6 hc.1 hc.2.2
    · rfl
  have e4 : ∃ t4, lookup_masq fuel env insock lport fport laddr faddr MISSING_UID =
      some (false, t4) := by
    simp only [lookup_masq]
    by_cases hc : env.opt_MASQ = true ∧ laddr.ss_family = AF_INET
    · obtain ⟨t, ht⟩ := hm hc.1 hc.2
      simp [hc.1, hc.2, ht]
    · rw [if_neg (fun h => hc ⟨h.1, h.2.2⟩)]
      exact ⟨_, rfl⟩
  obtain ⟨t4, e4⟩ := e4
  simp only [service_request_lookups, e0, e1, e2, e3, e4]
  exact ⟨_, rfl⟩

/-! ## No owner found (C3) -/

/-- C3: for a request with two valid ports for which every lookup that is
attempted yields no owner (the user database, `get_user4` and `get_user6`
return the missing value and `masq` is disabled or returns false),
`service_request` returns and the only line it writes is
`<lport>,<fport>:ERROR:NO-USER` when no `failuser` is configured and
`<lport>,<fport>:USERID:<ret_os>:<failuser>` when one is. -/
theorem service_request_no_owner (fuel : Nat) (env : Env) (insock outsock : Nat)
    (faddr0 laddr0 : sockaddr_storage) (line : String) (lport fport : Nat)
    (hpeer : env.getpeername insock = some faddr0)
    (hsock : env.getsockname insock = some laddr0)
    (hread : env.sock_read insock = some line)
    (hscan : sscanf line.data = { len := 2, lport_temp := lport, fport_temp := fport })
    (hl : 1 ≤ lport ∧ lport ≤ 65535) (hf : 1 ≤ fport ∧ fport ≤ 65535)
    (hudb : (env.HAVE_LIBUDB && env.opt_USEUDB) = true →
      (env.get_udb_user lport fport (v4_of_mapped env laddr0 laddr0)
        (v4_of_mapped env laddr0 faddr0) insock).status ≠ 2 ∧
      (env.get_udb_user lport fport (v4_of_mapped env laddr0 laddr0)
        (v4_of_mapped env laddr0 faddr0) insock).uid = MISSING_UID)
    (h4 : (v4_of_mapped env laddr0 laddr0).ss_family = AF_INET → ∃ t,
      get_user4 fuel env (htons env.little_endian lport) (htons env.little_endian fport)
        (v4_of_mapped env laddr0 laddr0) (v4_of_mapped env laddr0 faddr0) =
        some (MISSING_UID, t))
    (h6m : env.WANT_IPV6 = true → (v4_of_mapped env laddr0 laddr0).ss_family = AF_INET →
      (get_user6 env (htons env.little_endian lport) (htons env.little_endian fport)
        (sin_setv6 (sin_mapv4to6 (v4_of_mapped env laddr0 laddr0).sin_addr)
          sockaddr_storage.uninit)
        (sin_setv6 (sin_mapv4to6 (v4_of_mapped env laddr0 faddr0).sin_addr)
          sockaddr_storage.uninit)).1 = MISSING_UID)
    (h6 : env.WANT_IPV6 = true → laddr0.ss_family = AF_INET6 →
      (get_user6 env (htons env.little_endian lport) (htons env.little_endian fport)
        laddr0 faddr0).1 = MISSING_UID)
    (hm : env.opt_MASQ = true → (v4_of_mapped env laddr0 laddr0).ss_family = AF_INET → ∃ t,
      masq fuel env insock (htons env.little_endian lport) (htons env.little_endian fport)
        (v4_of_mapped env laddr0 laddr0) (v4_of_mapped env laddr0 faddr0) = some (false, t)) :
    ∃ tr, service_request fuel env insock outsock = some (0, tr) ∧
      tr.filter Event.is_write =
        [Event.sockprintf outsock
          (match env.failuser with
            | none => toString lport ++ "," ++ toString fport ++ ":ERROR:NO-USER\r\n"
            | some fu =>
              toString lport ++ "," ++ toString fport ++ ":USERID:" ++ env.ret_os ++ ":" ++
                fu ++ "\r\n")] := by
  obtain ⟨tl, htl⟩ := service_request_lookups_missing fuel env insock lport fport
    (v4_of_mapped env laddr0 laddr0) (v4_of_mapped env laddr0 faddr0) laddr0 faddr0
    hudb h4 h6m h6 hm
  have hw := service_request_lookups_no_write _ _ _ _ _ _ _ _ _ _ _ htl
  rw [service_request_valid fuel env insock outsock faddr0 laddr0 line lport fport
    hpeer hsock hread hscan hl hf]
  simp only [service_request_resolve, htl]
  refine ⟨_, rfl, ?_⟩
  rw [List.filter_append, hw, service_request_reply_missing]
  rfl

/-- C3, witness: on a host whose kernel memory cannot be read, the request
`6191, 23` is answered `6191,23:ERROR:NO-USER` when no fallback identity is
configured and `6191,23:USERID:UNIX:nobody` when the fallback is `nobody`. -/
theorem service_request_no_owner_witness :
    (∃ tr, service_request 0 (fixture Kmem.unreadable "6191, 23\r\n") 3 3 = some (0, tr) ∧
      tr.filter Event.is_write = [Event.sockprintf 3 "6191,23:ERROR:NO-USER\r\n"]) ∧
    (∃ tr, service_request 0 (fixture_failuser Kmem.unreadable "6191, 23\r\n" "nobody") 3 3 =
          some (0, tr) ∧
      tr.filter Event.is_write = [Event.sockprintf 3 "6191,23:USERID:UNIX:nobody\r\n"]) :=
  ⟨service_request_no_owner 0 (fixture Kmem.unreadable "6191, 23\r\n") 3 3
      (ipv4 peer_ip) (ipv4 host_ip) "6191, 23\r\n" 6191 23 rfl rfl rfl (by decide)
      (by decide) (by decide) (by decide) (fun _ => ⟨_, rfl⟩) (by decide) (by decide)
      (fun h => absurd h (by decide)),
    service_request_no_owner 0
      (fixture_failuser Kmem.unreadable "6191, 23\r\n" "nobody") 3 3
      (ipv4 peer_ip) (ipv4 host_ip) "6191, 23\r\n" 6191 23 rfl rfl rfl (by decide)
      (by decide) (by decide) (by decide) (fun _ => ⟨_, rfl⟩) (by decide) (by decide)
      (fun h => absurd h (by decide))⟩

/-! ## The IPv4 lookup (C10) -/

/-- The walk of `getlist4` over entries that do not match, up to a first
entry that does, returns the socket of that entry. -/
theorem getlist4_loop_first_match (env : Env) (head l f la fa : Nat) (e : inpcb) (k : Nat)
    (hk : k ≠ head) (hread : env.kmem.read_inpcb k = some e)
    (hmatch : (getlist4_proxy_match env l f la fa e || getlist4_exact_match l f la fa e) = true) :
    ∀ (pre : List inpcb) (start : Nat),
      inpcb_walk env.kmem head start pre k = true →
      (∀ p ∈ pre, (getlist4_proxy_match env l f la fa p ||
        getlist4_exact_match l f la fa p) = false) →
      ∀ fuel, pre.length < fuel →
        ∃ tr, getlist4_loop env head l f la fa fuel start = some (e.inp_socket, tr) := by
  intro pre
  induction pre with
  | nil =>
    intro start hw _ fuel hfuel
    simp only [inpcb_walk, beq_iff_eq] at hw
    subst hw
    obtain ⟨n, rfl⟩ : ∃ n, fuel = n + 1 := ⟨fuel - 1, by simp at hfuel; omega⟩
    simp only [getlist4_loop, if_neg hk, hread]
    simp only [Bool.or_eq_true] at hmatch
    rcases hmatch with h | h
    · simp [h]
    · by_cases hp : getlist4_proxy_match env l f la fa e = true
      · simp [hp]
      · simp [hp, h]
  | cons p ps ih =>
    intro start hw hpre fuel hfuel
    simp only [inpcb_walk, Bool.and_eq_true, bne_iff_ne, ne_eq, beq_iff_eq] at hw
    obtain ⟨⟨hs, hr⟩, hrest⟩ := hw
    obtain ⟨n, rfl⟩ : ∃ n, fuel = n + 1 := ⟨fuel - 1, by simp at hfuel; omega⟩
    have hp := hpre p (List.mem_cons_self _ _)
    simp only [Bool.or_eq_false_iff] at hp
    obtain ⟨tr, htr⟩ := ih p.cqe_next hrest (fun q hq => hpre q (List.mem_cons_of_mem _ hq)) n
      (by simp at hfuel; omega)
    refine ⟨Event.getbuf start :: tr, ?_⟩
    simp [getlist4_loop, if_neg hs, hr, hp.1, hp.2, htr]

/-- C10: when the first entry of the connection table that matches the query
(all entries before it do not match) refers to a socket whose state lacks
`SS_CONNECTOUT`, `get_user4` returns `MISSING_UID`, whoever owns the socket
and whatever follows in the table. -/
theorem get_user4_not_connected (fuel : Nat) (env : Env) (lport fport : Nat)
    (laddr faddr : sockaddr_storage) (tcbtable : inpcbtable) (pre : List inpcb)
    (k : Nat) (e : inpcb) (sock : socket)
    (htable : env.kmem.read_inpcbtable env.kmem.n_tcb = some tcbtable)
    (hwalk : inpcb_walk env.kmem env.kmem.n_tcb tcbtable.cqh_first pre k = true)
    (hpre : ∀ p ∈ pre, (getlist4_proxy_match env lport fport laddr.sin_addr faddr.sin_addr p ||
      getlist4_exact_match lport fport laddr.sin_addr faddr.sin_addr p) = false)
    (hk : k ≠ env.kmem.n_tcb) (hread : env.kmem.read_inpcb k = some e)
    (hmatch : (getlist4_proxy_match env lport fport laddr.sin_addr faddr.sin_addr e ||
      getlist4_exact_match lport fport laddr.sin_addr faddr.sin_addr e) = true)
    (hsock : env.kmem.read_socket e.inp_socket = some sock)
    (hstate : Nat.land sock.so_state SS_CONNECTOUT = 0)
    (hfuel : pre.length < fuel) :
    ∃ tr, get_user4 fuel env lport fport laddr faddr = some (MISSING_UID, tr) := by
  obtain ⟨tr, htr⟩ := getlist4_loop_first_match env env.kmem.n_tcb lport fport laddr.sin_addr
    faddr.sin_addr e k hk hread hmatch pre tcbtable.cqh_first hwalk hpre fuel hfuel
  simp only [get_user4, getlist4, htable, htr]
  by_cases h0 : e.inp_socket = 0
  · simp [h0]
  · simp [h0, hsock, hstate]

/-- C10, witness: the table holds a connection on other ports and then the
queried one, whose socket of uid 1000 lacks `SS_CONNECTOUT`; the lookup yields
the missing value. -/
theorem get_user4_not_connected_witness :
    ∃ tr, get_user4 2 (fixture (two_connections 80 5555 4098 1001 4321 23 2 1000) "") 57616 5888
      (ipv4 host_ip) (ipv4 peer_ip) = some (MISSING_UID, tr) :=
  get_user4_not_connected 2 (fixture (two_connections 80 5555 4098 1001 4321 23 2 1000) "")
    57616 5888 (ipv4 host_ip) (ipv4 peer_ip) { cqh_first := 1100 }
    [{ inp_faddr := peer_ip, inp_laddr := host_ip, inp_fport := 45845, inp_lport := 20480,
       inp_socket := 5000, cqe_next := 1200 }] 1200
    { inp_faddr := peer_ip, inp_laddr := host_ip, inp_fport := 5888, inp_lport := 57616,
      inp_socket := 5100, cqe_next := 1000 }
    { so_state := 2, so_ruid := 1000 }
    (by decide) (by decide) (by decide) (by decide) (by decide) (by decide) (by decide)
    (by decide) (by decide)

/-! ## A found owner (C2) -/

/-- When the first matching entry of the connection table refers to a socket
whose state has `SS_CONNECTOUT`, `get_user4` returns the owner of that
socket. -/
theorem get_user4_connected (fuel : Nat) (env : Env) (lport fport : Nat)
    (laddr faddr : sockaddr_storage) (tcbtable : inpcbtable) (pre : List inpcb)
    (k : Nat) (e : inpcb) (sock : socket)
    (htable : env.kmem.read_inpcbtable env.kmem.n_tcb = some tcbtable)
    (hwalk : inpcb_walk env.kmem env.kmem.n_tcb tcbtable.cqh_first pre k = true)
    (hpre : ∀ p ∈ pre, (getlist4_proxy_match env lport fport laddr.sin_addr faddr.sin_addr p ||
      getlist4_exact_match lport fport laddr.sin_addr faddr.sin_addr p) = false)
    (hk : k ≠ env.kmem.n_tcb) (hread : env.kmem.read_inpcb k = some e)
    (hmatch : (getlist4_proxy_match env lport fport laddr.sin_addr faddr.sin_addr e ||
      getlist4_exact_match lport fport laddr.sin_addr faddr.sin_addr e) = true)
    (hnull : e.inp_socket ≠ 0)
    (hsock : env.kmem.read_socket e.inp_socket = some sock)
    (hstate : Nat.land sock.so_state SS_CONNECTOUT ≠ 0)
    (hfuel : pre.length < fuel) :
    ∃ tr, get_user4 fuel env lport fport laddr faddr = some (sock.so_ruid, tr) := by
  obtain ⟨tr, htr⟩ := getlist4_loop_first_match env env.kmem.n_tcb lport fport laddr.sin_addr
    faddr.sin_addr e k hk hread hmatch pre tcbtable.cqh_first hwalk hpre fuel hfuel
  simp only [get_user4, getlist4, htable, htr]
  simp [hnull, hsock, hstate]

/-- When the IPv4 lookup finds an owner, the lookups leave that owner in
`con_uid`. -/
theorem service_request_lookups_user4 (fuel : Nat) (env : Env) (insock lport fport : Nat)
    (laddr faddr laddr6 faddr6 : sockaddr_storage) (uid : Nat) (t : List Event)
    (hudb : (env.HAVE_LIBUDB && env.opt_USEUDB) = true →
      (env.get_udb_user lport fport laddr faddr insock).status ≠ 2 ∧
      (env.get_udb_user lport fport laddr faddr insock).uid = MISSING_UID)
    (hfam : laddr.ss_family = AF_INET)
    (h4 : get_user4 fuel env (htons env.little_endian lport) (htons env.little_endian fport)
        laddr faddr = some (uid, t))
    (huid : uid ≠ MISSING_UID) :
    ∃ tr, service_request_lookups fuel env insock lport fport laddr faddr laddr6 faddr6 =
      some (some uid, tr) := by
  have e0 : ∃ t0, lookup_udb env insock lport fport laddr faddr MISSING_UID =
      (some MISSING_UID, t0) := by
    simp only [lookup_udb]
    by_cases hu : (env.HAVE_LIBUDB && env.opt_USEUDB) = true
    · obtain ⟨hs, hmiss⟩ := hudb hu
      simp [hu, hs, hmiss]
    · simp [hu]
  obtain ⟨t0, e0⟩ := e0
  have e1 : lookup_user4 fuel env lport fport laddr faddr MISSING_UID =
      some (uid, Event.get_user4 (htons env.little_endian lport)
        (htons env.little_endian fport) :: t) := by
    simp [lookup_user4, hfam, h4]
  have e2 : lookup_mapped6 env lport fport laddr faddr uid = (uid, []) := by
    simp [lookup_mapped6, huid]
  have e3 : lookup_user6 env lport fport laddr6 faddr6 uid = (uid, []) := by
    simp [lookup_user6, huid]
  have e4 : lookup_masq fuel env insock lport fport laddr faddr uid = some (false, []) := by
    simp [lookup_masq, huid]
  simp only [service_request_lookups, e0, e1, e2, e3, e4]
  exact ⟨_, rfl⟩

/-- The direct IPv4 lookup as the backend that finds the owner: for a request
with two valid ports, on an IPv4 connection with the user database not
answering, when the first entry of the connection table that matches has the
first integer as its local port, the second as its remote port and the
addresses of the connection, and its socket is connected out and owned by a
uid that the password database knows and the identity policy shows under the
name `n`, the only line written is `<first>,<second>:USERID:<ret_os>:n`. -/
theorem service_request_userid_direct (fuel : Nat) (env : Env) (insock outsock : Nat)
    (faddr0 laddr0 : sockaddr_storage) (line : String) (lport fport : Nat)
    (tcbtable : inpcbtable) (pre : List inpcb) (k : Nat) (e : inpcb) (sock : socket)
    (pw : passwd)
    (hpeer : env.getpeername insock = some faddr0)
    (hsock : env.getsockname insock = some laddr0)
    (hread : env.sock_read insock = some line)
    (hscan : sscanf line.data = { len := 2, lport_temp := lport, fport_temp := fport })
    (hl : 1 ≤ lport ∧ lport ≤ 65535) (hf : 1 ≤ fport ∧ fport ≤ 65535)
    (hudb : (env.HAVE_LIBUDB && env.opt_USEUDB) = true →
      (env.get_udb_user lport fport (v4_of_mapped env laddr0 laddr0)
        (v4_of_mapped env laddr0 faddr0) insock).status ≠ 2 ∧
      (env.get_udb_user lport fport (v4_of_mapped env laddr0 laddr0)
        (v4_of_mapped env laddr0 faddr0) insock).uid = MISSING_UID)
    (hfam : (v4_of_mapped env laddr0 laddr0).ss_family = AF_INET)
    (htable : env.kmem.read_inpcbtable env.kmem.n_tcb = some tcbtable)
    (hwalk : inpcb_walk env.kmem env.kmem.n_tcb tcbtable.cqh_first pre k = true)
    (hpre : ∀ p ∈ pre,
      (getlist4_proxy_match env (htons env.little_endian lport) (htons env.little_endian fport)
          (v4_of_mapped env laddr0 laddr0).sin_addr (v4_of_mapped env laddr0 faddr0).sin_addr p ||
        getlist4_exact_match (htons env.little_endian lport) (htons env.little_endian fport)
          (v4_of_mapped env laddr0 laddr0).sin_addr (v4_of_mapped env laddr0 faddr0).sin_addr p) =
        false)
    (hk : k ≠ env.kmem.n_tcb) (hreadk : env.kmem.read_inpcb k = some e)
    (hlport : e.inp_lport = htons env.little_endian lport)
    (hfport : e.inp_fport = htons env.little_endian fport)
    (hladdr : e.inp_laddr = (v4_of_mapped env laddr0 laddr0).sin_addr)
    (hfaddr : e.inp_faddr = (v4_of_mapped env laddr0 faddr0).sin_addr)
    (hnull : e.inp_socket ≠ 0)
    (hsockr : env.kmem.read_socket e.inp_socket = some sock)
    (hstate : Nat.land sock.so_state SS_CONNECTOUT ≠ 0)
    (huid : sock.so_ruid ≠ MISSING_UID)
    (hpw : env.getpwuid sock.so_ruid = some pw)
    (hident : (env.get_ident (copy_pw pw) lport fport (v4_of_mapped env laddr0 laddr0)
      (v4_of_mapped env laddr0 faddr0)).ret ≠ -1)
    (hfuel : pre.length < fuel) :
    ∃ tr, service_request fuel env insock outsock = some (0, tr) ∧
      tr.filter Event.is_write =
        [Event.sockprintf outsock
          (toString lport ++ "," ++ toString fport ++ ":USERID:" ++ env.ret_os ++ ":" ++
            (env.get_ident (copy_pw pw) lport fport (v4_of_mapped env laddr0 laddr0)
              (v4_of_mapped env laddr0 faddr0)).suser ++ "\r\n")] := by
  have hmatch : (getlist4_proxy_match env (htons env.little_endian lport)
        (htons env.little_endian fport) (v4_of_mapped env laddr0 laddr0).sin_addr
        (v4_of_mapped env laddr0 faddr0).sin_addr e ||
      getlist4_exact_match (htons env.little_endian lport) (htons env.little_endian fport)
        (v4_of_mapped env laddr0 laddr0).sin_addr (v4_of_mapped env laddr0 faddr0).sin_addr e) =
      true := by
    simp [getlist4_exact_match, hlport, hfport, hladdr, hfaddr]
  obtain ⟨t4, ht4⟩ := get_user4_connected fuel env _ _ _ _ tcbtable pre k e sock htable hwalk
    hpre hk hreadk hmatch hnull hsockr hstate hfuel
  obtain ⟨tl, htl⟩ := service_request_lookups_user4 fuel env insock lport fport
    (v4_of_mapped env laddr0 laddr0) (v4_of_mapped env laddr0 faddr0) laddr0 faddr0
    sock.so_ruid t4 hudb hfam ht4 huid
  have hw := service_request_lookups_no_write _ _ _ _ _ _ _ _ _ _ _ htl
  rw [service_request_valid fuel env insock outsock faddr0 laddr0 line lport fport
    hpeer hsock hread hscan hl hf]
  simp only [service_request_resolve, htl]
  refine ⟨_, rfl, ?_⟩
  rw [List.filter_append, hw]
  simp [service_request_reply, huid, hpw, hident, Event.is_write]

/-- The connection from port 4321 of this host to port 23 of the peer is
owned by uid 1000 (alice), os-token `UNIX`: the request `4321, 23` is answered
`4321,23:USERID:UNIX:alice` through the direct IPv4 lookup. -/
theorem service_request_userid_direct_witness :
    ∃ tr, service_request 1 (fixture (one_connection 4321 23 4098 1000) "4321, 23\r\n") 3 3 =
        some (0, tr) ∧
      tr.filter Event.is_write = [Event.sockprintf 3 "4321,23:USERID:UNIX:alice\r\n"] :=
  service_request_userid_direct 1 (fixture (one_connection 4321 23 4098 1000) "4321, 23\r\n") 3 3
    (ipv4 peer_ip) (ipv4 host_ip) "4321, 23\r\n" 4321 23 { cqh_first := 1100 } [] 1100
    { inp_faddr := peer_ip, inp_laddr := host_ip, inp_fport := 5888, inp_lport := 57616,
      inp_socket := 5000, cqe_next := 1000 }
    { so_state := 4098, so_ruid := 1000 }
    { pw_name := "alice", pw_uid := 1000, pw_gid := 100, pw_dir := "/home/alice" }
    rfl rfl rfl (by decide) (by decide) (by decide) (by decide) (by decide) (by decide)
    (by decide) (by decide) (by decide) (by decide) (by decide) (by decide) (by decide)
    (by decide) (by decide) (by decide) (by decide) (by decide) (by decide) (by decide)
    (by decide)

/-- One run in which the lookups leave an owner that the identity policy
hides: the only line written is the HIDDEN-USER error for the two ports. -/
theorem service_request_hidden_run (fuel : Nat) (env : Env) (insock outsock : Nat)
    (faddr0 laddr0 : sockaddr_storage) (line : String) (lport fport : Nat)
    (uid : Nat) (tl : List Event) (pw : passwd)
    (hpeer : env.getpeername insock = some faddr0)
    (hsock : env.getsockname insock = some laddr0)
    (hread : env.sock_read insock = some line)
    (hscan : sscanf line.data = { len := 2, lport_temp := lport, fport_temp := fport })
    (hl : 1 ≤ lport ∧ lport ≤ 65535) (hf : 1 ≤ fport ∧ fport ≤ 65535)
    (hlook : service_request_lookups fuel env insock lport fport
      (v4_of_mapped env laddr0 laddr0) (v4_of_mapped env laddr0 faddr0) laddr0 faddr0 =
      some (some uid, tl))
    (huid : uid ≠ MISSING_UID)
    (hpw : env.getpwuid uid = some pw)
    (hident : (env.get_ident (copy_pw pw) lport fport (v4_of_mapped env laddr0 laddr0)
      (v4_of_mapped env laddr0 faddr0)).ret = -1) :
    ∃ tr, service_request fuel env insock outsock = some (0, tr) ∧
      tr.filter Event.is_write =
        [Event.sockprintf outsock
          (toString lport ++ "," ++ toString fport ++ ":ERROR:HIDDEN-USER\r\n")] := by
  have hs : ":ERROR:" ++ ERROR "HIDDEN-USER" ++ "\r\n" = ":ERROR:HIDDEN-USER\r\n" := by decide
  have hw := service_request_lookups_no_write _ _ _ _ _ _ _ _ _ _ _ hlook
  rw [service_request_valid fuel env insock outsock faddr0 laddr0 line lport fport
    hpeer hsock hread hscan hl hf]
  simp only [service_request_resolve, hlook]
  refine ⟨_, rfl, ?_⟩
  rw [List.filter_append, hw]
  simp only [String.append_assoc] at hs
  simp [service_request_reply, huid, hpw, hident, Event.is_write, String.append_assoc, hs]

/-- C4: whenever the lookups of `service_request` find an owner (`con_uid` is
not the missing value) that the identity policy hides (`get_ident` returns
-1), the only line written is `<lport>,<fport>:ERROR:HIDDEN-USER`; and two
such runs on the same request line and output descriptor write the same
bytes, whatever the two environments, owners and their names are. -/
theorem service_request_hidden (fuel1 fuel2 : Nat) (env1 env2 : Env)
    (insock1 insock2 outsock : Nat)
    (faddr1 laddr1 faddr2 laddr2 : sockaddr_storage) (line : String) (lport fport : Nat)
    (uid1 uid2 : Nat) (tl1 tl2 : List Event) (pw1 pw2 : passwd)
    (hscan : sscanf line.data = { len := 2, lport_temp := lport, fport_temp := fport })
    (hl : 1 ≤ lport ∧ lport ≤ 65535) (hf : 1 ≤ fport ∧ fport ≤ 65535)
    (hpeer1 : env1.getpeername insock1 = some faddr1)
    (hsock1 : env1.getsockname insock1 = some laddr1)
    (hread1 : env1.sock_read insock1 = some line)
    (hlook1 : service_request_lookups fuel1 env1 insock1 lport fport
      (v4_of_mapped env1 laddr1 laddr1) (v4_of_mapped env1 laddr1 faddr1) laddr1 faddr1 =
      some (some uid1, tl1))
    (huid1 : uid1 ≠ MISSING_UID)
    (hpw1 : env1.getpwuid uid1 = some pw1)
    (hident1 : (env1.get_ident (copy_pw pw1) lport fport (v4_of_mapped env1 laddr1 laddr1)
      (v4_of_mapped env1 laddr1 faddr1)).ret = -1)
    (hpeer2 : env2.getpeername insock2 = some faddr2)
    (hsock2 : env2.getsockname insock2 = some laddr2)
    (hread2 : env2.sock_read insock2 = some line)
    (hlook2 : service_request_lookups fuel2 env2 insock2 lport fport
      (v4_of_mapped env2 laddr2 laddr2) (v4_of_mapped env2 laddr2 faddr2) laddr2 faddr2 =
      some (some uid2, tl2))
    (huid2 : uid2 ≠ MISSING_UID)
    (hpw2 : env2.getpwuid uid2 = some pw2)
    (hident2 : (env2.get_ident (copy_pw pw2) lport fport (v4_of_mapped env2 laddr2 laddr2)
      (v4_of_mapped env2 laddr2 faddr2)).ret = -1) :
    ∃ tr1 tr2, service_request fuel1 env1 insock1 outsock = some (0, tr1) ∧
      service_request fuel2 env2 insock2 outsock = some (0, tr2) ∧
      tr1.filter Event.is_write =
        [Event.sockprintf outsock
          (toString lport ++ "," ++ toString fport ++ ":ERROR:HIDDEN-USER\r\n")] ∧
      tr2.filter Event.is_write = tr1.filter Event.is_write := by
  obtain ⟨tr1, h1, w1⟩ := service_request_hidden_run fuel1 env1 insock1 outsock faddr1 laddr1
    line lport fport uid1 tl1 pw1 hpeer1 hsock1 hread1 hscan hl hf hlook1 huid1 hpw1 hident1
  obtain ⟨tr2, h2, w2⟩ := service_request_hidden_run fuel2 env2 insock2 outsock faddr2 laddr2
    line lport fport uid2 tl2 pw2 hpeer2 hsock2 hread2 hscan hl hf hlook2 huid2 hpw2 hident2
  exact ⟨tr1, tr2, h1, h2, w1, w2.trans w1.symm⟩

/-- C4, witness: the connection is owned by bob (uid 1001) in one run and by
carol (uid 1002) in the other, both hidden; both runs answer
`4321,23:ERROR:HIDDEN-USER`. -/
theorem service_request_hidden_witness :
    ∃ tr1 tr2,
      service_request 1 (fixture (one_connection 4321 23 4098 1001) "4321, 23\r\n") 3 3 =
        some (0, tr1) ∧
      service_request 1 (fixture (one_connection 4321 23 4098 1002) "4321, 23\r\n") 3 3 =
        some (0, tr2) ∧
      tr1.filter Event.is_write = [Event.sockprintf 3 "4321,23:ERROR:HIDDEN-USER\r\n"] ∧
      tr2.filter Event.is_write = tr1.filter Event.is_write :=
  service_request_hidden 1 1 (fixture (one_connection 4321 23 4098 1001) "4321, 23\r\n")
    (fixture (one_connection 4321 23 4098 1002) "4321, 23\r\n") 3 3 3
    (ipv4 peer_ip) (ipv4 host_ip) (ipv4 peer_ip) (ipv4 host_ip) "4321, 23\r\n" 4321 23
    1001 1002
    [Event.get_user4 57616 5888, Event.getbuf 1000, Event.getbuf 1100, Event.getbuf 5000]
    [Event.get_user4 57616 5888, Event.getbuf 1000, Event.getbuf 1100, Event.getbuf 5000]
    { pw_name := "bob", pw_uid := 1001, pw_gid := 100, pw_dir := "/home/bob" }
    { pw_name := "carol", pw_uid := 1002, pw_gid := 100, pw_dir := "/home/carol" }
    (by decide) (by decide) (by decide)
    rfl rfl rfl (by decide) (by decide) (by decide) (by decide)
    rfl rfl rfl (by decide) (by decide) (by decide) (by decide)

/-! ## The NAT list walk (C6, C7) -/

/-- C6, the code at the failing input, on a little-endian host in proxy mode
with forwarding disabled: the query comes from the proxy for the outside
ports 4321 and 23, and the NAT list holds two entries with these ports (to
two remote servers), the first for a host with no override entry, the second
for a host registered as `dave`. The second entry matches the query and has
an override identity, and from the second entry on the walk answers with it;
from the first entry on `masq` returns false and writes nothing, because the
ports it compares the second entry with have been byte-swapped in place. -/
theorem masq_failed_entry_swaps_ports :
    masq_match (fixture_masq_proxy nat_two_entries "") 57616 5888 (ipv4 host_ip)
        (ipv4 peer_ip) { nat_entry 4321 23 inside_ip2 0 with nat_oip := server_ip2 } = true ∧
      (fixture_find_masq_entry (sin_setv4 inside_ip2 sockaddr_storage.uninit)).ret = 0 ∧
      masq_loop (fixture_masq_proxy nat_two_entries "") 3 (ipv4 host_ip) (ipv4 peer_ip) 3 3100
          57616 5888 =
        some (true, [Event.getbuf 3100, Event.find_masq_entry inside_ip2,
          Event.sockprintf 3 "4321,23:USERID:LINUX:dave\r\n"]) ∧
      masq 3 (fixture_masq_proxy nat_two_entries "") 3 57616 5888 (ipv4 host_ip)
          (ipv4 peer_ip) =
        some (false, [Event.getbuf 2000, Event.getbuf 3000, Event.find_masq_entry inside_ip1,
          Event.getbuf 3100]) := by
  decide

theorem masq_loop_nat_cycle (sock lport fport : Nat) (laddr faddr : sockaddr_storage) :
    ∀ fuel, masq_loop (fixture_masq nat_cycle "") sock laddr faddr fuel 3000 lport fport =
      none := by
  intro fuel
  induction fuel with
  | zero => rfl
  | succ n ih =>
    have hr : (fixture_masq nat_cycle "").kmem.read_nat 3000 =
        some { nat_p := 17, nat_outport := 0, nat_oport := 0, nat_inport := 0,
               nat_outip := 0, nat_oip := 0, nat_inip := 0, nat_next := 3000 } := rfl
    have hm : masq_match (fixture_masq nat_cycle "") lport fport laddr faddr
        { nat_p := 17, nat_outport := 0, nat_oport := 0, nat_inport := 0,
          nat_outip := 0, nat_oip := 0, nat_inip := 0, nat_next := 3000 } = false := by
      simp [masq_match, IPPROTO_TCP]
    simp only [masq_loop, hr, hm]
    simp [ih]

/-- C7 as stated fails: on a NAT list that is a cycle of one entry that does
not match, `masq` returns with no amount of fuel: the walk is not bounded. -/
theorem masq_cycle_counterexample :
    ¬ ∃ fuel, (masq fuel (fixture_masq nat_cycle "") 3 57616 5888 (ipv4 host_ip)
      (ipv4 peer_ip)).isSome = true := by
  rintro ⟨fuel, h⟩
  have hp : (fixture_masq nat_cycle "").kmem.read_ptr
      (fixture_masq nat_cycle "").kmem.n_natlist = some 3000 := rfl
  have hf : ¬ ((ipv4 peer_ip).ss_family ≠ AF_INET ∨ (ipv4 host_ip).ss_family ≠ AF_INET) := by
    decide
  simp only [masq, if_neg hf, hp, masq_loop_nat_cycle] at h
  simp at h

theorem masq_loop_ends (env : Env) (sock : Nat) (laddr faddr : sockaddr_storage) :
    ∀ (n np lport fport : Nat), nat_chain_ends env.kmem n np = true →
      ∀ fuel, n < fuel → ∃ r, masq_loop env sock laddr faddr fuel np lport fport = some r := by
  intro n
  induction n with
  | zero =>
    intro np lport fport h fuel hfuel
    obtain ⟨m, rfl⟩ : ∃ m, fuel = m + 1 := ⟨fuel - 1, by omega⟩
    simp only [nat_chain_ends, Bool.or_eq_true, beq_iff_eq, Option.isNone_iff_eq_none] at h
    rcases h with h | h
    · exact ⟨(false, []), by simp [masq_loop, h]⟩
    · by_cases h0 : np = 0
      · exact ⟨(false, []), by simp [masq_loop, h0]⟩
      · exact ⟨(false, [Event.getbuf np]), by simp [masq_loop, h0, h]⟩
  | succ n ih =>
    intro np lport fport h fuel hfuel
    obtain ⟨m, rfl⟩ : ∃ m, fuel = m + 1 := ⟨fuel - 1, by omega⟩
    by_cases h0 : np = 0
    · exact ⟨(false, []), by simp [masq_loop, h0]⟩
    · cases hr : env.kmem.read_nat np with
      | none => exact ⟨(false, [Event.getbuf np]), by simp [masq_loop, h0, hr]⟩
      | some nat =>
        simp only [nat_chain_ends, Bool.or_eq_true, beq_iff_eq, h0, hr, false_or] at h
        simp only [masq_loop, if_neg h0, hr]
        by_cases hm : masq_match env lport fport laddr faddr nat = true
        · simp only [hm, Bool.not_true, Bool.false_eq_true, if_false]
          split
          · exact ⟨_, rfl⟩
          · split
            · exact ⟨_, rfl⟩
            · obtain ⟨r, hr2⟩ := ih nat.nat_next (ntohs env.little_endian lport)
                (ntohs env.little_endian fport) h m (by omega)
              rw [hr2]
              exact ⟨_, rfl⟩
        · simp only [Bool.not_eq_true] at hm
          obtain ⟨r, hr2⟩ := ih nat.nat_next lport fport h m (by omega)
          simp only [hm, Bool.not_false, if_true, hr2]
          exact ⟨_, rfl⟩

/-- C7, amended: when the NAT list reaches a null link or an entry that cannot
be read after at most `n` links, `masq` returns within `n + 1` iterations of
its loop (on a match, at the null link or at the failed read); and whenever
the read of an entry fails, for the list head or inside the loop, the result
is false and that failed read is the last effect (no further entry is
examined). -/
theorem masq_terminates_on_ending_chain (env : Env) (sock lport fport : Nat)
    (laddr faddr : sockaddr_storage) (n : Nat)
    (hends : ∀ np, env.kmem.read_ptr env.kmem.n_natlist = some np →
      nat_chain_ends env.kmem n np = true) :
    (∀ fuel, n < fuel → ∃ r, masq fuel env sock lport fport laddr faddr = some r) ∧
    (∀ fuel, faddr.ss_family = AF_INET → laddr.ss_family = AF_INET →
      env.kmem.read_ptr env.kmem.n_natlist = none →
      masq fuel env sock lport fport laddr faddr =
        some (false, [Event.getbuf env.kmem.n_natlist])) ∧
    (∀ fuel np l f, np ≠ 0 → env.kmem.read_nat np = none →
      masq_loop env sock laddr faddr (fuel + 1) np l f = some (false, [Event.getbuf np])) := by
  refine ⟨?_, ?_, ?_⟩
  · intro fuel hfuel
    simp only [masq]
    split
    · exact ⟨_, rfl⟩
    · cases hp : env.kmem.read_ptr env.kmem.n_natlist with
      | none => exact ⟨_, rfl⟩
      | some np =>
        obtain ⟨r, hr⟩ := masq_loop_ends env sock laddr faddr n np lport fport (hends np hp)
          fuel hfuel
        simp only [hr]
        exact ⟨_, rfl⟩
  · intro fuel hf hl hp
    simp [masq, hf, hl, hp]
  · intro fuel np l f h0 hr
    simp [masq_loop, h0, hr]

/-- C7, amended, witness: the list of three entries ends after three links,
and `masq` returns with fuel 4. -/
theorem masq_terminates_on_ending_chain_witness :
    ∃ r, masq 4 (fixture_masq nat_three_entries "") 3 57616 5888 (ipv4 host_ip)
      (ipv4 peer_ip) = some r :=
  (masq_terminates_on_ending_chain (fixture_masq nat_three_entries "") 3 57616 5888
    (ipv4 host_ip) (ipv4 peer_ip) 3
    (fun np h => by
      have h2 : np = 3000 := by
        have h3 : (fixture_masq nat_three_entries "").kmem.read_ptr
          (fixture_masq nat_three_entries "").kmem.n_natlist = some 3000 := rfl
        rw [h3] at h
        exact (Option.some.inj h).symm
      subst h2
      decide)).1 4 (by decide)

/-! ## The last entry of the NAT list (C8) -/

/-- The walk of `masq` over entries that do not match the query leaves the
query as it is and writes nothing. -/
theorem masq_loop_skip (env : Env) (sock : Nat) (laddr faddr : sockaddr_storage)
    (lport fport k : Nat) :
    ∀ (pre : List nat_t) (np : Nat), nat_walk env.kmem np pre k = true →
      (∀ p ∈ pre, masq_match env lport fport laddr faddr p = false) →
      ∀ (fuel : Nat) (r : Bool) (tr : List Event),
        masq_loop env sock laddr faddr fuel k lport fport = some (r, tr) →
        ∃ tpre, tpre.filter Event.is_write = [] ∧
          masq_loop env sock laddr faddr (fuel + pre.length) np lport fport =
            some (r, tpre ++ tr) := by
  intro pre
  induction pre with
  | nil =>
    intro np hw _ fuel r tr h
    simp only [nat_walk, beq_iff_eq] at hw
    subst hw
    exact ⟨[], rfl, by simpa using h⟩
  | cons p ps ih =>
    intro np hw hpre fuel r tr h
    simp only [nat_walk, Bool.and_eq_true, bne_iff_ne, ne_eq, beq_iff_eq] at hw
    obtain ⟨⟨h0, hr⟩, hrest⟩ := hw
    obtain ⟨tpre, hnw, hrec⟩ := ih p.nat_next hrest
      (fun q hq => hpre q (List.mem_cons_of_mem _ hq)) fuel r tr h
    have hp := hpre p (List.mem_cons_self _ _)
    refine ⟨Event.getbuf np :: tpre, by simp [List.filter_cons, Event.is_write, hnw], ?_⟩
    show masq_loop env sock laddr faddr ((fuel + ps.length) + 1) np lport fport = _
    simp [masq_loop, h0, hr, hp, hrec]

/-- A walk over `pre ++ [e]` that ends at the null link is a walk over `pre`
to the address of `e`, whose link is null. -/
theorem nat_walk_append_last (kmem : Kmem) (e : nat_t) :
    ∀ (pre : List nat_t) (np : Nat), nat_walk kmem np (pre ++ [e]) 0 = true →
      ∃ k, nat_walk kmem np pre k = true ∧ k ≠ 0 ∧ kmem.read_nat k = some e ∧
        e.nat_next = 0 := by
  intro pre
  induction pre with
  | nil =>
    intro np hw
    simp only [List.nil_append, nat_walk, Bool.and_eq_true, bne_iff_ne, ne_eq,
      beq_iff_eq] at hw
    exact ⟨np, by simp [nat_walk], hw.1.1, hw.1.2, hw.2⟩
  | cons p ps ih =>
    intro np hw
    simp only [List.cons_append, nat_walk, Bool.and_eq_true, bne_iff_ne, ne_eq,
      beq_iff_eq] at hw
    obtain ⟨k, hk, hk0, hkr, hnext⟩ := ih p.nat_next hw.2
    exact ⟨k, by simp [nat_walk, hw.1.1, hw.1.2, hk], hk0, hkr, hnext⟩

/-- C8: for a readable NAT list of N >= 1 entries `pre ++ [e]` whose first
N - 1 entries do not match the query, and fuel for more than N iterations:
(a) if the last entry matches an IPv4 query and has an override identity,
`masq` returns true and the only line it writes is
`<lport>,<fport>:USERID:<os>:<user>` with that identity (ports in host byte
order); (b) if the last entry does not match either, `masq` returns false and
writes nothing; (c) and then, in a `service_request` for two valid ports that
made this query after every earlier lookup yielded no owner, the only line
written is the NO-USER error, or the USERID line with `failuser` when one is
configured. -/
theorem masq_last_entry (fuel : Nat) (env : Env) (sock lport fport : Nat)
    (laddr faddr : sockaddr_storage) (np : Nat) (pre : List nat_t) (e : nat_t)
    (hptr : env.kmem.read_ptr env.kmem.n_natlist = some np)
    (hwalk : nat_walk env.kmem np (pre ++ [e]) 0 = true)
    (hpre : ∀ p ∈ pre, masq_match env lport fport laddr faddr p = false)
    (hfuel : pre.length + 1 < fuel) :
    (faddr.ss_family = AF_INET → laddr.ss_family = AF_INET →
      masq_match env lport fport laddr faddr e = true →
      (env.find_masq_entry (sin_setv4 e.nat_inip sockaddr_storage.uninit)).ret = 0 →
      ∃ tr, masq fuel env sock lport fport laddr faddr = some (true, tr) ∧
        tr.filter Event.is_write =
          [Event.sockprintf sock
            (toString (ntohs env.little_endian lport) ++ "," ++
              toString (ntohs env.little_endian fport) ++ ":USERID:" ++
              (env.find_masq_entry (sin_setv4 e.nat_inip sockaddr_storage.uninit)).os ++ ":" ++
              (env.find_masq_entry (sin_setv4 e.nat_inip sockaddr_storage.uninit)).user ++
              "\r\n")]) ∧
    (masq_match env lport fport laddr faddr e = false →
      ∃ tr, masq fuel env sock lport fport laddr faddr = some (false, tr) ∧
        tr.filter Event.is_write = []) ∧
    (masq_match env lport fport laddr faddr e = false →
      ∀ (outsock : Nat) (faddr0 laddr0 : sockaddr_storage) (line : String) (l f : Nat),
        env.getpeername sock = some faddr0 →
        env.getsockname sock = some laddr0 →
        env.sock_read sock = some line →
        sscanf line.data = { len := 2, lport_temp := l, fport_temp := f } →
        1 ≤ l ∧ l ≤ 65535 → 1 ≤ f ∧ f ≤ 65535 →
        lport = htons env.little_endian l → fport = htons env.little_endian f →
        laddr = v4_of_mapped env laddr0 laddr0 → faddr = v4_of_mapped env laddr0 faddr0 →
        ((env.HAVE_LIBUDB && env.opt_USEUDB) = true →
          (env.get_udb_user l f laddr faddr sock).status ≠ 2 ∧
          (env.get_udb_user l f laddr faddr sock).uid = MISSING_UID) →
        (laddr.ss_family = AF_INET → ∃ t,
          get_user4 fuel env lport fport laddr faddr = some (MISSING_UID, t)) →
        (env.WANT_IPV6 = true → laddr.ss_family = AF_INET →
          (get_user6 env lport fport
            (sin_setv6 (sin_mapv4to6 laddr.sin_addr) sockaddr_storage.uninit)
            (sin_setv6 (sin_mapv4to6 faddr.sin_addr) sockaddr_storage.uninit)).1 =
            MISSING_UID) →
        (env.WANT_IPV6 = true → laddr0.ss_family = AF_INET6 →
          (get_user6 env lport fport laddr0 faddr0).1 = MISSING_UID) →
        ∃ tr, service_request fuel env sock outsock = some (0, tr) ∧
          tr.filter Event.is_write =
            [Event.sockprintf outsock
              (match env.failuser with
                | none => toString l ++ "," ++ toString f ++ ":ERROR:NO-USER\r\n"
                | some fu =>
                  toString l ++ "," ++ toString f ++ ":USERID:" ++ env.ret_os ++ ":" ++ fu ++
                    "\r\n")]) := by
  obtain ⟨k, hk, hk0, hkr, hnext⟩ := nat_walk_append_last env.kmem e pre np hwalk
  obtain ⟨m, rfl⟩ : ∃ m, fuel = (m + 2) + pre.length := ⟨fuel - pre.length - 2, by omega⟩
  have hB : masq_match env lport fport laddr faddr e = false →
      ∃ tr, masq (m + 2 + pre.length) env sock lport fport laddr faddr = some (false, tr) ∧
        tr.filter Event.is_write = [] := by
    intro hmatch
    by_cases hfam : faddr.ss_family ≠ AF_INET ∨ laddr.ss_family ≠ AF_INET
    · exact ⟨[], by simp [masq, hfam], rfl⟩
    · have hlast : masq_loop env sock laddr faddr (m + 2) k lport fport =
          some (false, [Event.getbuf k]) := by
        simp [masq_loop, hk0, hkr, hmatch, hnext]
      obtain ⟨tpre, hnw, hrun⟩ := masq_loop_skip env sock laddr faddr lport fport k pre np hk
        hpre (m + 2) false _ hlast
      refine ⟨Event.getbuf env.kmem.n_natlist :: (tpre ++ [Event.getbuf k]), ?_, ?_⟩
      · simp only [masq, if_neg hfam, hptr, hrun]
      · simp [List.filter_cons, List.filter_append, Event.is_write, hnw]
  refine ⟨?_, hB, ?_⟩
  · intro hf hl hmatch hret
    have hfam : ¬ (faddr.ss_family ≠ AF_INET ∨ laddr.ss_family ≠ AF_INET) := by
      simp [hf, hl]
    have hlast : ∃ t0, masq_loop env sock laddr faddr (m + 2) k lport fport =
          some (true, t0) ∧
        t0.filter Event.is_write = [Event.sockprintf sock
            (toString (ntohs env.little_endian lport) ++ "," ++
              toString (ntohs env.little_endian fport) ++ ":USERID:" ++
              (env.find_masq_entry (sin_setv4 e.nat_inip sockaddr_storage.uninit)).os ++ ":" ++
              (env.find_masq_entry (sin_setv4 e.nat_inip sockaddr_storage.uninit)).user ++
              "\r\n")] := by
      refine ⟨Event.getbuf k :: Event.find_masq_entry e.nat_inip ::
        ((if (env.opt_FORWARD && !env.opt_MASQ_OVERRIDE) = true then
          [Event.fwd_request (ntohs env.little_endian lport)
            (ntohs env.little_endian e.nat_inport) (ntohs env.little_endian fport)
            (ntohs env.little_endian e.nat_outport) e.nat_inip]
         else []) ++ [Event.sockprintf sock
            (toString (ntohs env.little_endian lport) ++ "," ++
              toString (ntohs env.little_endian fport) ++ ":USERID:" ++
              (env.find_masq_entry (sin_setv4 e.nat_inip sockaddr_storage.uninit)).os ++ ":" ++
              (env.find_masq_entry (sin_setv4 e.nat_inip sockaddr_storage.uninit)).user ++
              "\r\n")]), ?_, ?_⟩
      · simp [masq_loop, hk0, hkr, hmatch, hret]
      · split <;> simp [List.filter_cons, Event.is_write]
    obtain ⟨t0, hlast, hw0⟩ := hlast
    obtain ⟨tpre, hnw, hrun⟩ := masq_loop_skip env sock laddr faddr lport fport k pre np hk
      hpre (m + 2) true t0 hlast
    refine ⟨Event.getbuf env.kmem.n_natlist :: (tpre ++ t0), ?_, ?_⟩
    · simp only [masq, if_neg hfam, hptr, hrun]
    · simp [List.filter_cons, List.filter_append, Event.is_write, hnw, hw0]
  · intro hmatch outsock faddr0 laddr0 line l f hpeer hsock hread hscan hl hf hlp hfp hla hfa
      hudb h4 h6m h6
    obtain ⟨tm, hmasq, _⟩ := hB hmatch
    subst hlp hfp hla hfa
    obtain ⟨tl, htl⟩ := service_request_lookups_missing (m + 2 + pre.length) env sock l f
      (v4_of_mapped env laddr0 laddr0) (v4_of_mapped env laddr0 faddr0) laddr0 faddr0
      hudb h4 h6m h6 (fun _ _ => ⟨tm, hmasq⟩)
    have hw := service_request_lookups_no_write _ _ _ _ _ _ _ _ _ _ _ htl
    rw [service_request_valid (m + 2 + pre.length) env sock outsock faddr0 laddr0 line l f
      hpeer hsock hread hscan hl hf]
    simp only [service_request_resolve, htl]
    refine ⟨_, rfl, ?_⟩
    rw [List.filter_append, hw, service_request_reply_missing]
    rfl

/-- C8, witness: the NAT list holds three entries of which only the last is
for the outside ports 4321 and 23, for a host registered as `dave`: `masq`
answers `4321,23:USERID:LINUX:dave`; and for the request `4321, 80`, which no
entry matches, `service_request` answers `4321,80:ERROR:NO-USER`. -/
theorem masq_last_entry_witness :
    (∃ tr, masq 4 (fixture_masq nat_three_entries "4321, 23\r\n") 3 57616 5888
        (ipv4 host_ip) (ipv4 peer_ip) = some (true, tr) ∧
      tr.filter Event.is_write = [Event.sockprintf 3 "4321,23:USERID:LINUX:dave\r\n"]) ∧
    (∃ tr, service_request 4 (fixture_masq nat_three_entries "4321, 80\r\n") 3 4 =
        some (0, tr) ∧
      tr.filter Event.is_write = [Event.sockprintf 4 "4321,80:ERROR:NO-USER\r\n"]) :=
  ⟨(masq_last_entry 4 (fixture_masq nat_three_entries "4321, 23\r\n") 3 57616 5888
      (ipv4 host_ip) (ipv4 peer_ip) 3000
      [nat_entry 8080 23 inside_ip1 3100, nat_entry 4321 25 inside_ip2 3200]
      (nat_entry 4321 23 inside_ip2 0) rfl (by decide) (by decide) (by decide)).1
      (by decide) (by decide) (by decide) (by decide),
    (masq_last_entry 4 (fixture_masq nat_three_entries "4321, 80\r\n") 3 57616 20480
      (ipv4 host_ip) (ipv4 peer_ip) 3000
      [nat_entry 8080 23 inside_ip1 3100, nat_entry 4321 25 inside_ip2 3200]
      (nat_entry 4321 23 inside_ip2 0) rfl (by decide) (by decide) (by decide)).2.2
      (by decide) 4 (ipv4 peer_ip) (ipv4 host_ip) "4321, 80\r\n" 4321 80 rfl rfl rfl
      (by decide) (by decide) (by decide) (by decide) (by decide) (by decide) (by decide)
      (by decide) (fun _ => ⟨_, rfl⟩) (by decide) (by decide)⟩

/-! ## The connection limit (C9) -/

theorem decrement_connections_counts (s : Server) (h1 : 1 ≤ s.current_connections)
    :
    (decrement_connections s).current_connections = s.current_connections - 1 ∧
      (decrement_connections s).connection_limit = s.connection_limit := by
  unfold decrement_connections
  dsimp only
  refine ⟨?_, rfl⟩
  rw [if_neg (by omega)]

theorem sig_child_counts (s : Server) :
    ∀ reaped, reaped ≤ s.current_connections →
      (sig_child s reaped).current_connections = s.current_connections - reaped ∧
      (sig_child s reaped).connection_limit = s.connection_limit := by
  intro reaped
  induction reaped generalizing s with
  | zero => intro _; exact ⟨rfl, rfl⟩
  | succ n ih =>
    intro h
    have hc := decrement_connections_counts s (by omega)
    have h3 := ih (decrement_connections s) (by rw [hc.1]; omega)
    unfold sig_child
    rw [h3.1, h3.2, hc.1, hc.2]
    exact ⟨by omega, rfl⟩

theorem accept_step_invariant (fuel : Nat) (env : Env) (s : Server) (connectfd : Int)
    (forked : Bool) (hinv : s.current_connections ≤ s.connection_limit) :
    (accept_step fuel env s connectfd forked).1.current_connections ≤ s.connection_limit ∧
      (accept_step fuel env s connectfd forked).1.connection_limit = s.connection_limit := by
  unfold accept_step
  split
  · exact ⟨hinv, rfl⟩
  · split
    · exact ⟨hinv, rfl⟩
    · rename_i _ hlt
      dsimp only
      refine ⟨?_, rfl⟩
      omega

theorem main_step_invariant (fuel : Nat) (s : Server) (st : MainStep)
    (hinv : s.current_connections ≤ s.connection_limit)
    (hreap : ∀ reaped, st = MainStep.sigchld reaped → reaped ≤ s.current_connections) :
    (main_step fuel s st).1.current_connections ≤ s.connection_limit ∧
      (main_step fuel s st).1.connection_limit = s.connection_limit := by
  cases st with
  | accept connectfd env forked =>
    unfold main_step
    exact accept_step_invariant fuel env s connectfd forked hinv
  | sigchld reaped =>
    have h := sig_child_counts s reaped (hreap reaped rfl)
    unfold main_step
    dsimp only
    exact ⟨by rw [h.1]; omega, h.2⟩

/-- C9: in the accept loop of `main`, a connection accepted while
`current_connections >= connection_limit` is only closed: the step forks no
child (so `service_request` is not run and nothing is written to the
connection) and leaves the counters as they are. Consequently, from
`current_connections <= connection_limit`, along every run of accept steps and
`SIGCHLD` deliveries (reaping no more children than are counted) the counter
stays at most `connection_limit`. -/
theorem accept_loop_limit (fuel : Nat) (s : Server) (steps : List MainStep)
    (hinv : s.current_connections ≤ s.connection_limit)
    (hreap : reaps_counted fuel s steps = true) :
    (∀ (s1 : Server) (env : Env) (connectfd : Int) (forked : Bool), connectfd ≠ -1 →
      s1.current_connections ≥ s1.connection_limit →
      accept_step fuel env s1 connectfd forked = (s1, [MainEvent.close connectfd]) ∧
      main_forked connectfd (accept_step fuel env s1 connectfd forked).2 = false ∧
      main_written connectfd (accept_step fuel env s1 connectfd forked).2 = []) ∧
    (main_run fuel s steps).1.current_connections ≤ s.connection_limit ∧
    (main_run fuel s steps).1.connection_limit = s.connection_limit := by
  refine ⟨?_, ?_⟩
  · intro s1 env connectfd forked hfd hge
    have h : accept_step fuel env s1 connectfd forked = (s1, [MainEvent.close connectfd]) := by
      unfold accept_step
      rw [if_neg hfd, if_pos hge]
    rw [h]
    exact ⟨rfl, rfl, rfl⟩
  · induction steps generalizing s with
    | nil => exact ⟨hinv, rfl⟩
    | cons st rest ih =>
      simp only [reaps_counted, Bool.and_eq_true] at hreap
      have hst := main_step_invariant fuel s st hinv (by
        intro reaped hs
        subst hs
        simpa using hreap.1)
      have := ih (main_step fuel s st).1 (by rw [hst.2]; exact hst.1) hreap.2
      rw [hst.2] at this
      exact this

/-- C9, witness: with limit 2 and no connection being served, three
connections are accepted before any child is reaped: the first two are handed
to a child each, the third is only closed and nothing is written to it, and
the counter ends at 2. -/
theorem accept_loop_limit_witness :
    (main_run 1 { connection_limit := 2, current_connections := 0 }
        [MainStep.accept 5 (fixture Kmem.unreadable "1, 2\r\n") true,
         MainStep.accept 6 (fixture Kmem.unreadable "3, 4\r\n") true,
         MainStep.accept 7 (fixture Kmem.unreadable "5, 6\r\n") true]).1.current_connections ≤ 2 ∧
      (main_run 1 { connection_limit := 2, current_connections := 0 }
        [MainStep.accept 5 (fixture Kmem.unreadable "1, 2\r\n") true,
         MainStep.accept 6 (fixture Kmem.unreadable "3, 4\r\n") true,
         MainStep.accept 7 (fixture Kmem.unreadable "5, 6\r\n") true]) =
        ({ connection_limit := 2, current_connections := 2 },
          [[MainEvent.fork 5 (some (0, [Event.get_user4 256 512, Event.getbuf 1000,
              Event.sockprintf 5 "1,2:ERROR:NO-USER\r\n"])), MainEvent.close 5],
           [MainEvent.fork 6 (some (0, [Event.get_user4 768 1024, Event.getbuf 1000,
              Event.sockprintf 6 "3,4:ERROR:NO-USER\r\n"])), MainEvent.close 6],
           [MainEvent.close 7]]) ∧
      main_written 7 [MainEvent.close 7] = [] :=
  ⟨(accept_loop_limit 1 { connection_limit := 2, current_connections := 0 }
      [MainStep.accept 5 (fixture Kmem.unreadable "1, 2\r\n") true,
       MainStep.accept 6 (fixture Kmem.unreadable "3, 4\r\n") true,
       MainStep.accept 7 (fixture Kmem.unreadable "5, 6\r\n") true]
      (by decide) (by decide)).2.1, by decide, by decide⟩

/-! ## The order of the lookups (C11) -/

/-- The user database stage: its trace is empty or its call marker, and it
leaves the missing value only if the database, when in use, returned it. -/
theorem lookup_udb_only_if (env : Env) (insock lport fport : Nat)
    (laddr faddr : sockaddr_storage) (r0 : Option Nat) (t0 : List Event)
    (h : lookup_udb env insock lport fport laddr faddr MISSING_UID = (r0, t0)) :
    (t0 = [] ∨ t0 = [Event.get_udb_user lport fport]) ∧
    (r0 = some MISSING_UID →
      ((env.HAVE_LIBUDB && env.opt_USEUDB) = true →
        (env.get_udb_user lport fport laddr faddr insock).status ≠ 2 ∧
        (env.get_udb_user lport fport laddr faddr insock).uid = MISSING_UID)) := by
  unfold lookup_udb at h
  by_cases hu : (env.HAVE_LIBUDB && env.opt_USEUDB) = true
  · rw [if_pos hu] at h
    by_cases hs : (env.get_udb_user lport fport laddr faddr insock).status = 2
    · simp only [hs, if_true, Prod.mk.injEq] at h
      refine ⟨Or.inr h.2.symm, ?_⟩
      intro hr
      rw [← h.1] at hr
      exact absurd hr (by simp)
    · simp only [hs, if_false, Prod.mk.injEq] at h
      refine ⟨Or.inr h.2.symm, ?_⟩
      intro hr _
      rw [← h.1] at hr
      exact ⟨hs, Option.some.inj hr⟩
  · rw [if_neg hu] at h
    simp only [Prod.mk.injEq] at h
    exact ⟨Or.inl h.2.symm, fun _ hc => absurd hc hu⟩

/-- The IPv4 stage: `get_user4` is called only if `con_uid` is the missing
value and the local address is an IPv4 one, and the stage leaves the missing
value only if it found it and `get_user4`, when called, returned it. -/
theorem lookup_user4_only_if (fuel : Nat) (env : Env) (lport fport : Nat)
    (laddr faddr : sockaddr_storage) (u0 u1 : Nat) (t1 : List Event)
    (h : lookup_user4 fuel env lport fport laddr faddr u0 = some (u1, t1)) :
    (t1 ≠ [] → u0 = MISSING_UID ∧ laddr.ss_family = AF_INET ∧
      ∃ t, get_user4 fuel env (htons env.little_endian lport) (htons env.little_endian fport)
          laddr faddr = some (u1, t) ∧
        t1 = Event.get_user4 (htons env.little_endian lport)
          (htons env.little_endian fport) :: t) ∧
    (u1 = MISSING_UID → u0 = MISSING_UID ∧
      (laddr.ss_family = AF_INET → ∃ t,
        get_user4 fuel env (htons env.little_endian lport) (htons env.little_endian fport)
          laddr faddr = some (MISSING_UID, t))) := by
  unfold lookup_user4 at h
  by_cases hc : u0 = MISSING_UID ∧ laddr.ss_family = AF_INET
  · rw [if_pos hc] at h
    cases hg : get_user4 fuel env (htons env.little_endian lport)
        (htons env.little_endian fport) laddr faddr with
    | none => rw [hg] at h; exact absurd h (by simp)
    | some r =>
      obtain ⟨uid, t⟩ := r
      rw [hg] at h
      simp only [Option.some.injEq, Prod.mk.injEq] at h
      obtain ⟨hu, ht⟩ := h
      subst hu
      refine ⟨fun _ => ⟨hc.1, hc.2, t, rfl, ht.symm⟩, ?_⟩
      intro hm
      subst hm
      exact ⟨hc.1, fun _ => ⟨t, rfl⟩⟩
  · rw [if_neg hc] at h
    simp only [Option.some.injEq, Prod.mk.injEq] at h
    obtain ⟨hu, ht⟩ := h
    subst hu
    refine ⟨fun hne => absurd ht.symm hne, ?_⟩
    intro hm
    exact ⟨hm, fun hf => absurd ⟨hm, hf⟩ hc⟩

/-- The mapped IPv6 stage: `get_user6` is called on the mapped form only if
`con_uid` is the missing value, and the stage leaves the missing value only
if it found it and `get_user6`, when called, returned it. -/
theorem lookup_mapped6_only_if (env : Env) (lport fport : Nat)
    (laddr faddr : sockaddr_storage) (u1 : Nat) :
    ((lookup_mapped6 env lport fport laddr faddr u1).2 ≠ [] →
      u1 = MISSING_UID ∧ env.WANT_IPV6 = true ∧ laddr.ss_family = AF_INET ∧
      (lookup_mapped6 env lport fport laddr faddr u1).2 =
        Event.get_user6 (htons env.little_endian lport) (htons env.little_endian fport)
            (sin_setv6 (sin_mapv4to6 laddr.sin_addr) sockaddr_storage.uninit).sin6_addr
            (sin_setv6 (sin_mapv4to6 faddr.sin_addr) sockaddr_storage.uninit).sin6_addr ::
          (get_user6 env (htons env.little_endian lport) (htons env.little_endian fport)
            (sin_setv6 (sin_mapv4to6 laddr.sin_addr) sockaddr_storage.uninit)
            (sin_setv6 (sin_mapv4to6 faddr.sin_addr) sockaddr_storage.uninit)).2) ∧
    ((lookup_mapped6 env lport fport laddr faddr u1).1 = MISSING_UID → u1 = MISSING_UID ∧
      (env.WANT_IPV6 = true → laddr.ss_family = AF_INET →
        (get_user6 env (htons env.little_endian lport) (htons env.little_endian fport)
          (sin_setv6 (sin_mapv4to6 laddr.sin_addr) sockaddr_storage.uninit)
          (sin_setv6 (sin_mapv4to6 faddr.sin_addr) sockaddr_storage.uninit)).1 =
          MISSING_UID)) := by
  unfold lookup_mapped6
  by_cases hc : env.WANT_IPV6 = true ∧ u1 = MISSING_UID ∧ laddr.ss_family = AF_INET
  · rw [if_pos hc]
    dsimp only
    exact ⟨fun _ => ⟨hc.2.1, hc.1, hc.2.2, rfl⟩, fun hm => ⟨hc.2.1, fun _ _ => hm⟩⟩
  · rw [if_neg hc]
    dsimp only
    exact ⟨fun hne => absurd rfl hne, fun hm => ⟨hm, fun hw hf => absurd ⟨hw, hm, hf⟩ hc⟩⟩

/-- The IPv6 stage: `get_user6` is called on the addresses as received only
if `con_uid` is the missing value, and the stage leaves the missing value
only if it found it and `get_user6`, when called, returned it. -/
theorem lookup_user6_only_if (env : Env) (lport fport : Nat)
    (laddr6 faddr6 : sockaddr_storage) (u2 : Nat) :
    ((lookup_user6 env lport fport laddr6 faddr6 u2).2 ≠ [] →
      u2 = MISSING_UID ∧ env.WANT_IPV6 = true ∧ laddr6.ss_family = AF_INET6 ∧
      (lookup_user6 env lport fport laddr6 faddr6 u2).2 =
        Event.get_user6 (htons env.little_endian lport) (htons env.little_endian fport)
            laddr6.sin6_addr faddr6.sin6_addr ::
          (get_user6 env (htons env.little_endian lport) (htons env.little_endian fport)
            laddr6 faddr6).2) ∧
    ((lookup_user6 env lport fport laddr6 faddr6 u2).1 = MISSING_UID → u2 = MISSING_UID ∧
      (env.WANT_IPV6 = true → laddr6.ss_family = AF_INET6 →
        (get_user6 env (htons env.little_endian lport) (htons env.little_endian fport)
          laddr6 faddr6).1 = MISSING_UID)) := by
  unfold lookup_user6
  by_cases hc : env.WANT_IPV6 = true ∧ u2 = MISSING_UID ∧ laddr6.ss_family = AF_INET6
  · rw [if_pos hc]
    dsimp only
    exact ⟨fun _ => ⟨hc.2.1, hc.1, hc.2.2, rfl⟩, fun hm => ⟨hc.2.1, fun _ _ => hm⟩⟩
  · rw [if_neg hc]
    dsimp only
    exact ⟨fun hne => absurd rfl hne, fun hm => ⟨hm, fun hw hf => absurd ⟨hw, hm, hf⟩ hc⟩⟩

/-- The masquerade stage: `masq` is called only if `MASQ` is enabled, `con_uid`
is the missing value and the local address is an IPv4 one. -/
theorem lookup_masq_only_if (fuel : Nat) (env : Env) (insock lport fport : Nat)
    (laddr faddr : sockaddr_storage) (u3 : Nat) (b : Bool) (t4 : List Event)
    (h : lookup_masq fuel env insock lport fport laddr faddr u3 = some (b, t4)) :
    t4 ≠ [] → u3 = MISSING_UID ∧ env.opt_MASQ = true ∧ laddr.ss_family = AF_INET ∧
      ∃ t, masq fuel env insock (htons env.little_endian lport)
          (htons env.little_endian fport) laddr faddr = some (b, t) ∧
        t4 = Event.masq (htons env.little_endian lport) (htons env.little_endian fport) :: t := by
  unfold lookup_masq at h
  by_cases hc : env.opt_MASQ = true ∧ u3 = MISSING_UID ∧ laddr.ss_family = AF_INET
  · rw [if_pos hc] at h
    cases hg : masq fuel env insock (htons env.little_endian lport)
        (htons env.little_endian fport) laddr faddr with
    | none => rw [hg] at h; exact absurd h (by simp)
    | some r =>
      obtain ⟨r, t⟩ := r
      rw [hg] at h
      simp only [Option.some.injEq, Prod.mk.injEq] at h
      obtain ⟨hb, ht⟩ := h
      subst hb
      exact fun _ => ⟨hc.2.1, hc.1, hc.2.2, t, rfl, ht.symm⟩
  · rw [if_neg hc] at h
    simp only [Option.some.injEq, Prod.mk.injEq] at h
    exact fun hne => absurd h.2.symm hne

/-- The trace of the lookups of `service_request` is the concatenation, in
the order of the code, of one segment per backend; the segment of a backend
is empty unless the backend was called, and it was called only if every
backend before it returned the missing value. -/
theorem service_request_lookups_segments (fuel : Nat) (env : Env) (insock lport fport : Nat)
    (laddr faddr laddr6 faddr6 : sockaddr_storage) (nl nf : Nat)
    (laddr_m6 faddr_m6 : sockaddr_storage) (res : Option Nat) (tr : List Event)
    (hnl : nl = htons env.little_endian lport) (hnf : nf = htons env.little_endian fport)
    (hlm : laddr_m6 = sin_setv6 (sin_mapv4to6 laddr.sin_addr) sockaddr_storage.uninit)
    (hfm : faddr_m6 = sin_setv6 (sin_mapv4to6 faddr.sin_addr) sockaddr_storage.uninit)
    (hrun : service_request_lookups fuel env insock lport fport laddr faddr laddr6 faddr6 =
      some (res, tr)) :
    ∃ t0 t4 t6m t6 tm, tr = t0 ++ t4 ++ t6m ++ t6 ++ tm ∧
      (t0 = [] ∨ t0 = [Event.get_udb_user lport fport]) ∧
      (t4 ≠ [] →
        ((env.HAVE_LIBUDB && env.opt_USEUDB) = true →
          (env.get_udb_user lport fport laddr faddr insock).status ≠ 2 ∧
          (env.get_udb_user lport fport laddr faddr insock).uid = MISSING_UID) ∧
        laddr.ss_family = AF_INET ∧
        ∃ u t, get_user4 fuel env nl nf laddr faddr = some (u, t) ∧
          t4 = Event.get_user4 nl nf :: t) ∧
      (t6m ≠ [] →
        ((env.HAVE_LIBUDB && env.opt_USEUDB) = true →
          (env.get_udb_user lport fport laddr faddr insock).status ≠ 2 ∧
          (env.get_udb_user lport fport laddr faddr insock).uid = MISSING_UID) ∧
        (laddr.ss_family = AF_INET →
          ∃ t, get_user4 fuel env nl nf laddr faddr = some (MISSING_UID, t)) ∧
        env.WANT_IPV6 = true ∧ laddr.ss_family = AF_INET ∧
        t6m = Event.get_user6 nl nf laddr_m6.sin6_addr faddr_m6.sin6_addr ::
          (get_user6 env nl nf laddr_m6 faddr_m6).2) ∧
      (t6 ≠ [] →
        ((env.HAVE_LIBUDB && env.opt_USEUDB) = true →
          (env.get_udb_user lport fport laddr faddr insock).status ≠ 2 ∧
          (env.get_udb_user lport fport laddr faddr insock).uid = MISSING_UID) ∧
        (laddr.ss_family = AF_INET →
          ∃ t, get_user4 fuel env nl nf laddr faddr = some (MISSING_UID, t)) ∧
        (env.WANT_IPV6 = true → laddr.ss_family = AF_INET →
          (get_user6 env nl nf laddr_m6 faddr_m6).1 = MISSING_UID) ∧
        env.WANT_IPV6 = true ∧ laddr6.ss_family = AF_INET6 ∧
        t6 = Event.get_user6 nl nf laddr6.sin6_addr faddr6.sin6_addr ::
          (get_user6 env nl nf laddr6 faddr6).2) ∧
      (tm ≠ [] →
        ((env.HAVE_LIBUDB && env.opt_USEUDB) = true →
          (env.get_udb_user lport fport laddr faddr insock).status ≠ 2 ∧
          (env.get_udb_user lport fport laddr faddr insock).uid = MISSING_UID) ∧
        (laddr.ss_family = AF_INET →
          ∃ t, get_user4 fuel env nl nf laddr faddr = some (MISSING_UID, t)) ∧
        (env.WANT_IPV6 = true → laddr.ss_family = AF_INET →
          (get_user6 env nl nf laddr_m6 faddr_m6).1 = MISSING_UID) ∧
        (env.WANT_IPV6 = true → laddr6.ss_family = AF_INET6 →
          (get_user6 env nl nf laddr6 faddr6).1 = MISSING_UID) ∧
        env.opt_MASQ = true ∧ laddr.ss_family = AF_INET ∧
        ∃ b t, masq fuel env insock nl nf laddr faddr = some (b, t) ∧
          tm = Event.masq nl nf :: t) := by
  subst hnl hnf hlm hfm
  unfold service_request_lookups at hrun
  cases h0 : lookup_udb env insock lport fport laddr faddr MISSING_UID with
  | mk r0 t0 =>
    have s0 := lookup_udb_only_if env insock lport fport laddr faddr r0 t0 h0
    rw [h0] at hrun
    cases r0 with
    | none =>
      simp only [Option.some.injEq, Prod.mk.injEq] at hrun
      refine ⟨t0, [], [], [], [], by simp [hrun.2], s0.1, ?_, ?_, ?_, ?_⟩ <;>
        exact fun h => absurd rfl h
    | some u0 =>
      dsimp only at hrun
      cases h1 : lookup_user4 fuel env lport fport laddr faddr u0 with
      | none => rw [h1] at hrun; exact absurd hrun (by simp)
      | some p1 =>
        obtain ⟨u1, t1⟩ := p1
        have s1 := lookup_user4_only_if fuel env lport fport laddr faddr u0 u1 t1 h1
        have s2 := lookup_mapped6_only_if env lport fport laddr faddr u1
        have s3 := lookup_user6_only_if env lport fport laddr6 faddr6
          (lookup_mapped6 env lport fport laddr faddr u1).1
        rw [h1] at hrun
        dsimp only at hrun
        cases h4 : lookup_masq fuel env insock lport fport laddr faddr
            (lookup_user6 env lport fport laddr6 faddr6
              (lookup_mapped6 env lport fport laddr faddr u1).1).1 with
        | none => rw [h4] at hrun; exact absurd hrun (by simp)
        | some p4 =>
          obtain ⟨b, t4⟩ := p4
          have s4 := lookup_masq_only_if fuel env insock lport fport laddr faddr _ b t4 h4
          have htr : tr = t0 ++ t1 ++ (lookup_mapped6 env lport fport laddr faddr u1).2 ++
              (lookup_user6 env lport fport laddr6 faddr6
                (lookup_mapped6 env lport fport laddr faddr u1).1).2 ++ t4 := by
            rw [h4] at hrun
            cases b <;>
              · simp only [Option.some.injEq, Prod.mk.injEq] at hrun
                exact hrun.2.symm
          have hudb : u0 = MISSING_UID →
              ((env.HAVE_LIBUDB && env.opt_USEUDB) = true →
                (env.get_udb_user lport fport laddr faddr insock).status ≠ 2 ∧
                (env.get_udb_user lport fport laddr faddr insock).uid = MISSING_UID) :=
            fun hu => s0.2 (by rw [hu])
          refine ⟨t0, t1, _, _, t4, htr, s0.1, ?_, ?_, ?_, ?_⟩
          · intro hne
            obtain ⟨hu0, hfam, t, hg, ht⟩ := s1.1 hne
            exact ⟨hudb hu0, hfam, u1, t, hg, ht⟩
          · intro hne
            obtain ⟨hu1, hw, hfam, ht⟩ := s2.1 hne
            obtain ⟨hu0, hg4⟩ := s1.2 hu1
            exact ⟨hudb hu0, hg4, hw, hfam, ht⟩
          · intro hne
            obtain ⟨hu2, hw, hfam6, ht⟩ := s3.1 hne
            obtain ⟨hu1, hg6m⟩ := s2.2 hu2
            obtain ⟨hu0, hg4⟩ := s1.2 hu1
            exact ⟨hudb hu0, hg4, hg6m, hw, hfam6, ht⟩
          · intro hne
            obtain ⟨hu3, hmq, hfam, t, hg, ht⟩ := s4 hne
            obtain ⟨hu2, hg6⟩ := s3.2 hu3
            obtain ⟨hu1, hg6m⟩ := s2.2 hu2
            obtain ⟨hu0, hg4⟩ := s1.2 hu1
            exact ⟨hudb hu0, hg4, hg6m, hg6, hmq, hfam, b, t, hg, ht⟩

/-- C11: in a `service_request` for two valid ports that returns, the trace is
the concatenation, in the order of the code, of one segment per backend (user
database, `get_user4`, `get_user6` on the mapped form, `get_user6` on the
addresses as received, `masq`) and of the reply. The segment of a backend is
empty unless the backend was called, and then it is the call and its effects;
each backend after the first was called only if every backend before it
returned the missing value (the user database, when in use, did not answer;
`get_user4`, if the local address is IPv4, returned `MISSING_UID`; and so
on), so that once a backend returns an owner the segments of all later
backends are empty; `masq` was called only if, moreover, `MASQ` is enabled and
the local address is IPv4. And `masq` itself returns false with no effect at
all, hence without a read of the NAT list, when either address is not
IPv4. -/
theorem service_request_sequential (fuel : Nat) (env : Env) (insock outsock : Nat)
    (faddr0 laddr0 : sockaddr_storage) (line : String) (lport fport : Nat)
    (laddr faddr : sockaddr_storage) (nl nf : Nat) (laddr_m6 faddr_m6 : sockaddr_storage)
    (rv : Int) (tr : List Event)
    (hpeer : env.getpeername insock = some faddr0)
    (hsock : env.getsockname insock = some laddr0)
    (hread : env.sock_read insock = some line)
    (hscan : sscanf line.data = { len := 2, lport_temp := lport, fport_temp := fport })
    (hl : 1 ≤ lport ∧ lport ≤ 65535) (hf : 1 ≤ fport ∧ fport ≤ 65535)
    (hla : laddr = v4_of_mapped env laddr0 laddr0)
    (hfa : faddr = v4_of_mapped env laddr0 faddr0)
    (hnl : nl = htons env.little_endian lport) (hnf : nf = htons env.little_endian fport)
    (hlm : laddr_m6 = sin_setv6 (sin_mapv4to6 laddr.sin_addr) sockaddr_storage.uninit)
    (hfm : faddr_m6 = sin_setv6 (sin_mapv4to6 faddr.sin_addr) sockaddr_storage.uninit)
    (hrun : service_request fuel env insock outsock = some (rv, tr)) :
    (∃ t0 t4 t6m t6 tm trep, tr = t0 ++ t4 ++ t6m ++ t6 ++ tm ++ trep ∧
      (t0 = [] ∨ t0 = [Event.get_udb_user lport fport]) ∧
      (t4 ≠ [] →
        ((env.HAVE_LIBUDB && env.opt_USEUDB) = true →
          (env.get_udb_user lport fport laddr faddr insock).status ≠ 2 ∧
          (env.get_udb_user lport fport laddr faddr insock).uid = MISSING_UID) ∧
        laddr.ss_family = AF_INET ∧
        ∃ u t, get_user4 fuel env nl nf laddr faddr = some (u, t) ∧
          t4 = Event.get_user4 nl nf :: t) ∧
      (t6m ≠ [] →
        ((env.HAVE_LIBUDB && env.opt_USEUDB) = true →
          (env.get_udb_user lport fport laddr faddr insock).status ≠ 2 ∧
          (env.get_udb_user lport fport laddr faddr insock).uid = MISSING_UID) ∧
        (laddr.ss_family = AF_INET →
          ∃ t, get_user4 fuel env nl nf laddr faddr = some (MISSING_UID, t)) ∧
        env.WANT_IPV6 = true ∧ laddr.ss_family = AF_INET ∧
        t6m = Event.get_user6 nl nf laddr_m6.sin6_addr faddr_m6.sin6_addr ::
          (get_user6 env nl nf laddr_m6 faddr_m6).2) ∧
      (t6 ≠ [] →
        ((env.HAVE_LIBUDB && env.opt_USEUDB) = true →
          (env.get_udb_user lport fport laddr faddr insock).status ≠ 2 ∧
          (env.get_udb_user lport fport laddr faddr insock).uid = MISSING_UID) ∧
        (laddr.ss_family = AF_INET →
          ∃ t, get_user4 fuel env nl nf laddr faddr = some (MISSING_UID, t)) ∧
        (env.WANT_IPV6 = true → laddr.ss_family = AF_INET →
          (get_user6 env nl nf laddr_m6 faddr_m6).1 = MISSING_UID) ∧
        env.WANT_IPV6 = true ∧ laddr0.ss_family = AF_INET6 ∧
        t6 = Event.get_user6 nl nf laddr0.sin6_addr faddr0.sin6_addr ::
          (get_user6 env nl nf laddr0 faddr0).2) ∧
      (tm ≠ [] →
        ((env.HAVE_LIBUDB && env.opt_USEUDB) = true →
          (env.get_udb_user lport fport laddr faddr insock).status ≠ 2 ∧
          (env.get_udb_user lport fport laddr faddr insock).uid = MISSING_UID) ∧
        (laddr.ss_family = AF_INET →
          ∃ t, get_user4 fuel env nl nf laddr faddr = some (MISSING_UID, t)) ∧
        (env.WANT_IPV6 = true → laddr.ss_family = AF_INET →
          (get_user6 env nl nf laddr_m6 faddr_m6).1 = MISSING_UID) ∧
        (env.WANT_IPV6 = true → laddr0.ss_family = AF_INET6 →
          (get_user6 env nl nf laddr0 faddr0).1 = MISSING_UID) ∧
        env.opt_MASQ = true ∧ laddr.ss_family = AF_INET ∧
        ∃ b t, masq fuel env insock nl nf laddr faddr = some (b, t) ∧
          tm = Event.masq nl nf :: t) ∧
      (trep = [] ∨
        ∃ con_uid, trep = service_request_reply env outsock lport fport laddr faddr con_uid)) ∧
    (∀ (fuel1 sock lp fp : Nat) (la fa : sockaddr_storage),
      fa.ss_family ≠ AF_INET ∨ la.ss_family ≠ AF_INET →
      masq fuel1 env sock lp fp la fa = some (false, [])) := by
  refine ⟨?_, ?_⟩
  · subst hla hfa
    rw [service_request_valid fuel env insock outsock faddr0 laddr0 line lport fport
      hpeer hsock hread hscan hl hf] at hrun
    unfold service_request_resolve at hrun
    cases hlk : service_request_lookups fuel env insock lport fport
        (v4_of_mapped env laddr0 laddr0) (v4_of_mapped env laddr0 faddr0) laddr0 faddr0 with
    | none => rw [hlk] at hrun; exact absurd hrun (by simp)
    | some p =>
      obtain ⟨res, tl⟩ := p
      obtain ⟨t0, t4, t6m, t6, tm, htl, c0, c4, c6m, c6, cm⟩ :=
        service_request_lookups_segments fuel env insock lport fport
          (v4_of_mapped env laddr0 laddr0) (v4_of_mapped env laddr0 faddr0) laddr0 faddr0
          nl nf laddr_m6 faddr_m6 res tl hnl hnf hlm hfm hlk
      rw [hlk] at hrun
      cases res with
      | none =>
        simp only [Option.some.injEq, Prod.mk.injEq] at hrun
        refine ⟨t0, t4, t6m, t6, tm, [], ?_, c0, c4, c6m, c6, cm, Or.inl rfl⟩
        rw [← hrun.2, htl, List.append_nil]
      | some con_uid =>
        simp only [Option.some.injEq, Prod.mk.injEq] at hrun
        refine ⟨t0, t4, t6m, t6, tm, _, ?_, c0, c4, c6m, c6, cm, Or.inr ⟨con_uid, rfl⟩⟩
        rw [← hrun.2, htl]
  · intro fuel1 sock lp fp la fa hfam
    unfold masq
    rw [if_pos hfam]

/-- C11, witness: on a dual-stack NAT gateway whose NAT list is a cycle, the
request `4321, 23` for a connection that `get_user4` finds (uid 1000, alice)
is answered after that one lookup: the trace holds no call of `get_user6` or
`masq`, and the run returns although a walk of the NAT list would not; and
`masq` for an IPv6 local address returns false with no effect. -/
theorem service_request_sequential_witness :
    service_request 3 (fixture_dual (one_connection_nat_cycle 1000) "4321, 23\r\n" 1001) 3 4 =
        some (0, [Event.get_user4 57616 5888, Event.getbuf 1000, Event.getbuf 1100,
          Event.getbuf 5000, Event.getpwuid 1000, Event.get_ident 1000,
          Event.sockprintf 4 "4321,23:USERID:UNIX:alice\r\n"]) ∧
      masq 0 (fixture_dual (one_connection_nat_cycle 1000) "4321, 23\r\n" 1001) 3 57616 5888
        (ipv6 5) (ipv4 peer_ip) = some (false, []) :=
  ⟨by decide,
    (service_request_sequential 3
      (fixture_dual (one_connection_nat_cycle 1000) "4321, 23\r\n" 1001) 3 4
      (ipv4 peer_ip) (ipv4 host_ip) "4321, 23\r\n" 4321 23 (ipv4 host_ip) (ipv4 peer_ip)
      57616 5888
      (sin_setv6 (sin_mapv4to6 host_ip) sockaddr_storage.uninit)
      (sin_setv6 (sin_mapv4to6 peer_ip) sockaddr_storage.uninit)
      0 [Event.get_user4 57616 5888, Event.getbuf 1000, Event.getbuf 1100,
          Event.getbuf 5000, Event.getpwuid 1000, Event.get_ident 1000,
          Event.sockprintf 4 "4321,23:USERID:UNIX:alice\r\n"]
      rfl rfl rfl (by decide) (by decide) (by decide) (by decide) (by decide) (by decide)
      (by decide) (by decide) (by decide) (by decide)).2 0 3 57616 5888 (ipv6 5) (ipv4 peer_ip)
      (Or.inr (by decide))⟩

end Oidentd
